import Mathlib

set_option maxHeartbeats 1000000

-- Batteries marks the arithmetic on ℚ irreducible, which blocks `decide` and
-- `rfl` evaluation of the concrete battle computations below; restore the
-- default reducibility (proof content is unaffected).
attribute [local semireducible] Rat.add Rat.mul Rat.sub Rat.inv Rat.ofScientific

namespace Pokedo

-- Shallow embedding of the pokedo battle engine (src/pokedo/core/moves.py and
-- src/pokedo/core/battle.py).  Python `int` is modelled as ℤ, Python `float`
-- as ℚ (the float computations in this code are sign/ordering robust), a
-- `None`-able value as `Option`, and the process-wide `random` source as an
-- explicit stream of rationals, one element consumed per `random.*` call.
-- A Python list subscript that can raise `IndexError` is modelled as an
-- `Option`-returning lookup, and a function that can raise returns `Option`.

-- ---------------------------------------------------------------------------
-- moves.py: enums
-- ---------------------------------------------------------------------------

/-- `PokemonType`: all 18 Pokemon types (moves.py lines 9-29). -/
inductive PType where
  | normal | fire | water | electric | grass | ice | fighting | poison | ground
  | flying | psychic | bug | rock | ghost | dragon | dark | steel | fairy
  deriving DecidableEq, Fintype

/-- `DamageClass` (moves.py lines 32-37). -/
inductive DamageClass where
  | physical | special | status
  deriving DecidableEq

/-- `StatusEffect` (moves.py lines 40-49). -/
inductive StatusEffect where
  | none | burn | freeze | paralysis | poison | badly_poisoned | sleep
  deriving DecidableEq

/-- The `.value` string of a `StatusEffect` member. -/
def StatusEffect.value : StatusEffect → String
  | .none => "none"
  | .burn => "burn"
  | .freeze => "freeze"
  | .paralysis => "paralysis"
  | .poison => "poison"
  | .badly_poisoned => "badly_poisoned"
  | .sleep => "sleep"

-- ---------------------------------------------------------------------------
-- moves.py: type effectiveness chart (lines 136-241)
-- ---------------------------------------------------------------------------

/-- `_SUPER_EFFECTIVE` pairs (moves.py lines 142-180). -/
def SUPER_EFFECTIVE : List (PType × PType) := [
  (.fire, .grass), (.fire, .ice), (.fire, .bug), (.fire, .steel),
  (.water, .fire), (.water, .ground), (.water, .rock),
  (.electric, .water), (.electric, .flying),
  (.grass, .water), (.grass, .ground), (.grass, .rock),
  (.ice, .grass), (.ice, .ground), (.ice, .flying), (.ice, .dragon),
  (.fighting, .normal), (.fighting, .ice), (.fighting, .rock),
  (.fighting, .dark), (.fighting, .steel),
  (.poison, .grass), (.poison, .fairy),
  (.ground, .fire), (.ground, .electric), (.ground, .poison),
  (.ground, .rock), (.ground, .steel),
  (.flying, .grass), (.flying, .fighting), (.flying, .bug),
  (.psychic, .fighting), (.psychic, .poison),
  (.bug, .grass), (.bug, .psychic), (.bug, .dark),
  (.rock, .fire), (.rock, .ice), (.rock, .flying), (.rock, .bug),
  (.ghost, .psychic), (.ghost, .ghost),
  (.dragon, .dragon),
  (.dark, .psychic), (.dark, .ghost),
  (.steel, .ice), (.steel, .rock), (.steel, .fairy),
  (.fairy, .fighting), (.fairy, .dragon), (.fairy, .dark)]

/-- `_NOT_VERY_EFFECTIVE` pairs (moves.py lines 182-222). -/
def NOT_VERY_EFFECTIVE : List (PType × PType) := [
  (.normal, .rock), (.normal, .steel),
  (.fire, .fire), (.fire, .water), (.fire, .rock), (.fire, .dragon),
  (.water, .water), (.water, .grass), (.water, .dragon),
  (.electric, .electric), (.electric, .grass), (.electric, .dragon),
  (.grass, .fire), (.grass, .grass), (.grass, .poison),
  (.grass, .flying), (.grass, .bug), (.grass, .dragon), (.grass, .steel),
  (.ice, .fire), (.ice, .water), (.ice, .ice), (.ice, .steel),
  (.fighting, .poison), (.fighting, .flying), (.fighting, .psychic),
  (.fighting, .bug), (.fighting, .fairy),
  (.poison, .poison), (.poison, .ground), (.poison, .rock), (.poison, .ghost),
  (.ground, .grass), (.ground, .bug),
  (.flying, .electric), (.flying, .rock), (.flying, .steel),
  (.psychic, .psychic), (.psychic, .steel),
  (.bug, .fire), (.bug, .fighting), (.bug, .poison),
  (.bug, .flying), (.bug, .ghost), (.bug, .steel), (.bug, .fairy),
  (.rock, .fighting), (.rock, .ground), (.rock, .steel),
  (.ghost, .dark),
  (.dragon, .steel),
  (.dark, .fighting), (.dark, .dark), (.dark, .fairy),
  (.steel, .fire), (.steel, .water), (.steel, .electric), (.steel, .steel),
  (.fairy, .fire), (.fairy, .poison), (.fairy, .steel)]

/-- `_IMMUNE` pairs (moves.py lines 224-233). -/
def IMMUNE : List (PType × PType) := [
  (.normal, .ghost),
  (.electric, .ground),
  (.fighting, .ghost),
  (.poison, .steel),
  (.ground, .flying),
  (.psychic, .dark),
  (.ghost, .normal),
  (.dragon, .fairy)]

/-- `TYPE_CHART[a][d]`: the chart starts all 1.0, then is overridden by the
super-effective list (2.0), the not-very-effective list (0.5), and last by the
immune list (0.0); later assignments win, so membership is tested in the
reverse of assignment order (moves.py lines 139, 236-241). -/
def TYPE_CHART (a d : PType) : ℚ :=
  if (a, d) ∈ IMMUNE then 0
  else if (a, d) ∈ NOT_VERY_EFFECTIVE then 1/2
  else if (a, d) ∈ SUPER_EFFECTIVE then 2
  else 1

/-- A chart row lookup for a move's type string.  A move type outside the 18
chart keys, such as Struggle's `"typeless"`, is modelled as `Option.none`:
`TYPE_CHART.get(move_t, {}).get(d, 1.0)` then yields the default 1.0. -/
def chart_lookup (move_t : Option PType) (d : PType) : ℚ :=
  match move_t with
  | Option.none => 1
  | Option.some a => TYPE_CHART a d

/-- `get_type_effectiveness(move_type, defender_type1, defender_type2)`
(moves.py lines 244-254). -/
def get_type_effectiveness (move_type : Option PType) (defender_type1 : PType)
    (defender_type2 : Option PType) : ℚ :=
  let mult := chart_lookup move_type defender_type1
  match defender_type2 with
  | Option.none => mult
  | Option.some t => mult * chart_lookup move_type t

-- ---------------------------------------------------------------------------
-- Python primitives
-- ---------------------------------------------------------------------------

/-- Python `int(q)`: truncation toward zero. -/
def pyInt (q : ℚ) : ℤ :=
  if 0 ≤ q then ⌊q⌋ else ⌈q⌉

/-- Python `round(q)` on a float: round half to even. -/
def pyRound (q : ℚ) : ℤ :=
  let fl := ⌊q⌋
  let fr := q - fl
  if fr < 1/2 then fl
  else if 1/2 < fr then fl + 1
  else if 2 ∣ fl then fl else fl + 1

/-- Python list subscript `l[i]`: nonnegative indices from the front, negative
indices from the back, anything else raises `IndexError` (`Option.none`). -/
def pyIndex (l : List α) (i : ℤ) : Option α :=
  let j := if i < 0 then (l.length : ℤ) + i else i
  if j < 0 then Option.none else l.get? j.toNat

/-- The normalized (front-based) position used by `pyIndex`. -/
def pyIndexNat (l : List α) (i : ℤ) : ℕ :=
  (if i < 0 then (l.length : ℤ) + i else i).toNat

-- ---------------------------------------------------------------------------
-- Random source: one rational consumed per random.* call
-- ---------------------------------------------------------------------------

/-- The process-wide random stream.  Each `random.random`, `random.randint`,
`random.uniform` or two-element `random.shuffle` call consumes exactly one
element; an exhausted stream yields a default draw. -/
abbrev Rng := List ℚ

/-- Pop one raw draw from the stream. -/
def popQ : Rng → ℚ × Rng
  | [] => (0, [])
  | q :: r => (q, r)

/-- `random.random()`: a draw in `[0, 1)`. -/
def popRandom (rng : Rng) : ℚ × Rng :=
  let (q, r) := popQ rng
  (if 0 ≤ q ∧ q < 1 then q else 0, r)

/-- `random.randint(a, b)`: a draw in `[a, b]` (out-of-range raw draws fall
back to `a`). -/
def popRandint (a b : ℤ) (rng : Rng) : ℤ × Rng :=
  let (q, r) := popQ rng
  (if a ≤ ⌊q⌋ ∧ ⌊q⌋ ≤ b then ⌊q⌋ else a, r)

/-- `random.uniform(a, b)`: a draw in `[a, b]` (out-of-range raw draws fall
back to `a`). -/
def popUniform (a b : ℚ) (rng : Rng) : ℚ × Rng :=
  let (q, r) := popQ rng
  (if a ≤ q ∧ q ≤ b then q else a, r)

-- ---------------------------------------------------------------------------
-- moves.py: the Move model (lines 261-289)
-- ---------------------------------------------------------------------------

/-- A Python `.title()` used in Move.model_post_init: every space-separated
word gets its first character uppercased and the rest lowercased. -/
def pyTitleWord (s : String) : String :=
  match s.data with
  | [] => ""
  | c :: cs => String.mk (c.toUpper :: cs.map Char.toLower)

/-- Python `str.title()` restricted to space-separated words (all inputs this
code builds display names from are of that shape). -/
def pyTitle (s : String) : String :=
  String.intercalate " " ((s.split (· = ' ')).map pyTitleWord)

/-- Python `str.capitalize()`: first char uppercased, rest lowercased. -/
def pyCapitalize (s : String) : String :=
  match s.data with
  | [] => ""
  | c :: cs => String.mk (c.toUpper :: cs.map Char.toLower)

/-- `Move` (moves.py lines 261-283).  The `type` string is a `PType` when it
is one of the 18 chart keys and `Option.none` otherwise (e.g. `"typeless"`). -/
structure Move where
  id : Option ℤ := Option.none
  name : String
  display_name : String := ""
  type : Option PType
  damage_class : DamageClass := DamageClass.physical
  power : Option ℤ := Option.none
  accuracy : Option ℤ := Option.none
  pp : ℤ := 20
  current_pp : Option ℤ := Option.none
  priority : ℤ := 0
  effect_text : String := ""
  effect_chance : Option ℤ := Option.none
  status_effect : StatusEffect := StatusEffect.none
  stat_changes : List (String × ℤ) := []
  drain_percent : ℤ := 0
  healing_percent : ℤ := 0
  flinch_chance : ℤ := 0
  deriving DecidableEq

/-- `Move.model_post_init` (moves.py lines 284-289): fill in `display_name`
from `name` and `current_pp` from `pp` when absent.  Pydantic runs this on
every constructed `Move`. -/
def Move.postInit (m : Move) : Move :=
  let m1 := if m.display_name = "" then
    { m with display_name := pyTitle (m.name.replace "-" " ") } else m
  if m1.current_pp = Option.none then { m1 with current_pp := Option.some m1.pp } else m1

-- ---------------------------------------------------------------------------
-- moves.py: damage calculation (lines 296-343)
-- ---------------------------------------------------------------------------

/-- The STAB factor of `calculate_damage` (moves.py line 327): ×1.5 when the
move's type is among the attacker's types. -/
def stab_bonus (move : Move) (attacker_types : List PType) : ℚ :=
  match move.type with
  | Option.some t => if t ∈ attacker_types then 3/2 else 1
  | Option.none => 1

/-- The deterministic core of `calculate_damage` (moves.py lines 296-343),
with the two random draws passed in explicitly: `critRoll` is the value of
`random.randint(1, 16) == 1` and `rand_factor` the value of
`random.uniform(0.85, 1.0)`.  Requires `defense_stat ≠ 0` to be faithful
(Python would raise `ZeroDivisionError`; here `q / 0 = 0`). -/
def calculate_damage_core (attacker_level : ℤ) (move : Move)
    (attack_stat defense_stat : ℤ) (attacker_types : List PType)
    (defender_type1 : PType) (defender_type2 : Option PType)
    (critical : Bool) (weather_modifier : ℚ)
    (critRoll : Bool) (rand_factor : ℚ) : ℤ × ℚ × Bool :=
  match move.power with
  | Option.none => (0, 1, false)
  | Option.some p =>
    if p = 0 then (0, 1, false)
    else
      let is_crit := critical || critRoll
      let base : ℚ :=
        ((2 * (attacker_level : ℚ) / 5 + 2) * (p : ℚ) * (attack_stat : ℚ) /
          (defense_stat : ℚ)) / 50 + 2
      let stab : ℚ := stab_bonus move attacker_types
      let effectiveness := get_type_effectiveness move.type defender_type1 defender_type2
      let crit_mult : ℚ := if is_crit then 3/2 else 1
      let modifier := stab * effectiveness * crit_mult * rand_factor * weather_modifier
      let damage : ℤ := if 0 < effectiveness then max 1 (pyInt (base * modifier)) else 0
      (damage, effectiveness, is_crit)

/-- The critical-hit roll `random.randint(1, 16) == 1` (moves.py line 321). -/
def critDraw (rng : Rng) : Bool × Rng :=
  let nr := popRandint 1 16 rng
  (decide (nr.1 = 1), nr.2)

/-- `calculate_damage` with the random draws taken from the stream, exactly in
source order: the zero-power early return happens before any draw; the
critical roll `random.randint(1, 16)` is skipped entirely when `critical` is
already true (Python `or` short-circuits); then `random.uniform(0.85, 1.0)`
is drawn. -/
def calculate_damage (attacker_level : ℤ) (move : Move)
    (attack_stat defense_stat : ℤ) (attacker_types : List PType)
    (defender_type1 : PType) (defender_type2 : Option PType)
    (critical : Bool) (weather_modifier : ℚ) (rng : Rng) :
    (ℤ × ℚ × Bool) × Rng :=
  match move.power with
  | Option.none => ((0, 1, false), rng)
  | Option.some p =>
    if p = 0 then ((0, 1, false), rng)
    else
      let critPair := if critical then (false, rng) else critDraw rng
      let rfPair := popUniform (17/20) 1 critPair.2
      (calculate_damage_core attacker_level move attack_stat defense_stat
        attacker_types defender_type1 defender_type2 critical weather_modifier
        critPair.1 rfPair.1, rfPair.2)

-- ---------------------------------------------------------------------------
-- battle.py: ELO rating helpers (lines 912-928)
-- ---------------------------------------------------------------------------

def DEFAULT_ELO : ℤ := 1000

def K_FACTOR : ℤ := 32

/-- `calculate_elo_change(winner_elo, loser_elo)` (battle.py lines 916-928),
parameterized by the value `r` of the floating-point power
`10 ** ((loser_elo - winner_elo) / 400)`.  `r` is a positive real; it equals
`1` exactly when the ratings are equal, is `> 1` when the loser is rated
higher, `< 1` when the winner is rated higher, and is exactly `10 ^ k` when
the rating difference is `400 * k`. -/
def calculate_elo_change (r : ℚ) : ℤ × ℤ :=
  let expected_winner : ℚ := 1 / (1 + r)
  let expected_loser : ℚ := 1 - expected_winner
  let winner_delta := pyRound ((K_FACTOR : ℚ) * (1 - expected_winner))
  let loser_delta := pyRound ((K_FACTOR : ℚ) * (0 - expected_loser))
  (winner_delta, loser_delta)

-- ---------------------------------------------------------------------------
-- battle.py: enums (lines 34-58)
-- ---------------------------------------------------------------------------

/-- `BattleStatus` (battle.py lines 34-42). -/
inductive BattleStatus where
  | pending | team_select | active | finished | cancelled | forfeit
  deriving DecidableEq

/-- `BattleActionType` (battle.py lines 45-50). -/
inductive BattleActionType where
  | attack | switch | forfeit
  deriving DecidableEq

/-- `BattleFormat` (battle.py lines 53-58). -/
inductive BattleFormat where
  | singles_3v3 | singles_6v6 | singles_1v1
  deriving DecidableEq

-- ---------------------------------------------------------------------------
-- battle.py: supporting models (lines 65-196)
-- ---------------------------------------------------------------------------

/-- `BattlePokemon` (battle.py lines 65-105). -/
structure BattlePokemon where
  pokemon_id : ℤ
  pokedex_id : ℤ
  name : String
  nickname : Option String := Option.none
  type1 : PType
  type2 : Option PType := Option.none
  max_hp : ℤ
  current_hp : ℤ
  atk : ℤ
  defense : ℤ
  spa : ℤ
  spd : ℤ
  spe : ℤ
  level : ℤ := 50
  nature : String := "hardy"
  moves : List Move := []
  status : StatusEffect := StatusEffect.none
  status_turns : ℤ := 0
  is_fainted : Bool := false
  is_protected : Bool := false
  confusion_turns : ℤ := 0
  deriving DecidableEq

/-- `BattlePokemon.display_name` (battle.py lines 107-109): the nickname when
truthy (present and nonempty), else the capitalized species name. -/
def BattlePokemon.display_name (m : BattlePokemon) : String :=
  match m.nickname with
  | Option.some s => if s = "" then pyCapitalize m.name else s
  | Option.none => pyCapitalize m.name

/-- `BattlePokemon.types` (battle.py lines 117-122). -/
def BattlePokemon.types (m : BattlePokemon) : List PType :=
  match m.type2 with
  | Option.some t => [m.type1, t]
  | Option.none => [m.type1]

/-- `BattlePokemon.take_damage` (battle.py lines 124-131): apply damage,
return the actual amount dealt, clamp health at 0 and set the fainted flag
when health reaches 0.  Returns `(actual, updated pokemon)`. -/
def BattlePokemon.take_damage (m : BattlePokemon) (amount : ℤ) : ℤ × BattlePokemon :=
  let actual := min amount m.current_hp
  let hp := m.current_hp - actual
  if hp ≤ 0 then (actual, { m with current_hp := 0, is_fainted := true })
  else (actual, { m with current_hp := hp })

/-- `BattlePokemon.heal` (battle.py lines 133-139): heal up to `max_hp`,
restoring nothing on a fainted pokemon.  Returns `(actual, updated)`. -/
def BattlePokemon.heal (m : BattlePokemon) (amount : ℤ) : ℤ × BattlePokemon :=
  if m.is_fainted then (0, m)
  else
    let actual := min amount (m.max_hp - m.current_hp)
    (actual, { m with current_hp := m.current_hp + actual })

/-- `BattleAction` (battle.py lines 142-148). -/
structure BattleAction where
  action_type : BattleActionType
  move_index : Option ℤ := Option.none
  switch_to : Option ℤ := Option.none
  player_id : String := ""
  deriving DecidableEq

/-- `TurnEvent` (battle.py lines 151-165). -/
structure TurnEvent where
  event_type : String
  player_id : String := ""
  pokemon_name : String := ""
  target_name : String := ""
  move_name : String := ""
  damage : ℤ := 0
  effectiveness : ℚ := 1
  critical : Bool := false
  message : String := ""
  deriving DecidableEq

/-- `BattleTeam` (battle.py lines 168-196). -/
structure BattleTeam where
  player_id : String
  trainer_name : String := ""
  roster : List BattlePokemon := []
  active_index : ℤ := 0
  action : Option BattleAction := Option.none
  deriving DecidableEq

/-- `BattleTeam.active_pokemon` (battle.py lines 177-181). -/
def BattleTeam.active_pokemon (t : BattleTeam) : Option BattlePokemon :=
  if 0 ≤ t.active_index ∧ t.active_index < (t.roster.length : ℤ) then
    t.roster.get? t.active_index.toNat
  else Option.none

/-- Write the (in-range) active roster slot back after a mutation of the
active pokemon object — the functional image of Python's in-place mutation
through the `active_pokemon` reference. -/
def BattleTeam.setActive (t : BattleTeam) (m : BattlePokemon) : BattleTeam :=
  { t with roster := t.roster.set t.active_index.toNat m }

/-- `BattleTeam.has_usable_pokemon` (battle.py lines 183-185). -/
def BattleTeam.has_usable_pokemon (t : BattleTeam) : Bool :=
  t.roster.any (fun p => !p.is_fainted)

/-- `BattleTeam.next_alive_index` (battle.py lines 191-196): index of the
first non-fainted pokemon other than the active one, or `None`. -/
def BattleTeam.next_alive_index (t : BattleTeam) : Option ℤ :=
  ((t.roster.enum.find? fun ip =>
      ((ip.1 : ℤ) ≠ t.active_index) && !ip.2.is_fainted).map
    fun ip => (ip.1 : ℤ))

-- ---------------------------------------------------------------------------
-- battle.py: main battle state (lines 203-257)
-- ---------------------------------------------------------------------------

/-- `BattleState` (battle.py lines 203-235).  Timestamps are abstract ℕ
clock values. -/
structure BattleState where
  battle_id : String := ""
  created_at : ℕ := 0
  updated_at : ℕ := 0
  format : BattleFormat := BattleFormat.singles_3v3
  status : BattleStatus := BattleStatus.pending
  challenger_id : String
  opponent_id : String
  team1 : Option BattleTeam := Option.none
  team2 : Option BattleTeam := Option.none
  turn_number : ℤ := 0
  turn_log : List (List TurnEvent) := []
  winner_id : Option String := Option.none
  loser_id : Option String := Option.none
  winner_elo_delta : ℤ := 0
  loser_elo_delta : ℤ := 0
  deriving DecidableEq

/-- `BattleState.both_actions_submitted` (battle.py lines 253-257). -/
def BattleState.both_actions_submitted (st : BattleState) : Bool :=
  match st.team1, st.team2 with
  | Option.some t1, Option.some t2 => t1.action.isSome && t2.action.isSome
  | _, _ => false

-- ---------------------------------------------------------------------------
-- battle.py: turn resolution engine (lines 325-905)
-- ---------------------------------------------------------------------------

/-- `_effective_speed` (battle.py lines 403-408): speed, halved (floor) when
paralyzed. -/
def effective_speed (mon : BattlePokemon) : ℤ :=
  if mon.status = StatusEffect.paralysis then mon.spe / 2 else mon.spe

/-- `sort_key` (battle.py lines 410-417): `(move priority, effective speed)`
for one attacker.  `pokemon.moves[action.move_index]` is reached whenever the
index is less than the list length — a sufficiently negative index makes the
subscript raise (`Option.none`). -/
def sort_key (team : BattleTeam) (action : BattleAction) : Option (ℤ × ℤ) :=
  let pokemon := team.active_pokemon
  let prio : Option ℤ :=
    match action.move_index, pokemon with
    | Option.some i, Option.some p =>
      if i < (p.moves.length : ℤ) then (pyIndex p.moves i).map Move.priority
      else Option.some 0
    | _, _ => Option.some 0
  prio.map fun mp =>
    (mp, match pokemon with
         | Option.some p => effective_speed p
         | Option.none => 0)

/-- The priority re-computation in the speed-tie check (battle.py
lines 427-432), for a pokemon already known to be present. -/
def tie_priority (p : BattlePokemon) (a : BattleAction) : Option ℤ :=
  match a.move_index with
  | Option.some i =>
    if i < (p.moves.length : ℤ) then (pyIndex p.moves i).map Move.priority
    else Option.some 0
  | Option.none => Option.some 0

/-- The switch-processing step of `resolve_turn` for one side (battle.py
lines 382-392). -/
def process_switch (team : BattleTeam) (action : BattleAction) :
    BattleTeam × List TurnEvent :=
  if action.action_type = BattleActionType.switch then
    let old_name := match team.active_pokemon with
      | Option.some m => m.display_name
      | Option.none => "?"
    let team' := { team with active_index := action.switch_to.getD 0 }
    let new_name := match team'.active_pokemon with
      | Option.some m => m.display_name
      | Option.none => "?"
    (team', [{ event_type := "switch", player_id := team.player_id,
               pokemon_name := new_name,
               message := team.trainer_name ++ " switched " ++ old_name ++
                 " for " ++ new_name ++ "!" }])
  else (team, [])

/-- The attack-ordering block of `resolve_turn` (battle.py lines 394-434):
build the attacker list (side 1 first), stable-sort the two-element case by
`(priority, speed)` descending, then re-check for an exact tie and shuffle.
`true` denotes side 1.  `Option.none` models an `IndexError` raised inside
`sort_key` or the tie re-check. -/
def order_attackers (team1 team2 : BattleTeam) (action1 action2 : BattleAction)
    (rng : Rng) : Option (List Bool × Rng) :=
  let attackers : List Bool :=
    (if action1.action_type = BattleActionType.attack then [true] else []) ++
    (if action2.action_type = BattleActionType.attack then [false] else [])
  match attackers with
  | [x, y] =>
    let teamOf := fun s => if s then team1 else team2
    let actOf := fun s => if s then action1 else action2
    match sort_key (teamOf x) (actOf x), sort_key (teamOf y) (actOf y) with
    | Option.some kx, Option.some ky =>
      let sorted :=
        if kx.1 < ky.1 ∨ (kx.1 = ky.1 ∧ kx.2 < ky.2) then [y, x] else [x, y]
      match sorted with
      | [s1, s2] =>
        match (teamOf s1).active_pokemon, (teamOf s2).active_pokemon with
        | Option.some p1, Option.some p2 =>
          match tie_priority p1 (actOf s1), tie_priority p2 (actOf s2) with
          | Option.some pri1, Option.some pri2 =>
            if pri1 = pri2 ∧ effective_speed p1 = effective_speed p2 then
              let (q, rng1) := popQ rng
              Option.some (if q < 1/2 then [s1, s2] else [s2, s1], rng1)
            else Option.some ([s1, s2], rng)
          | _, _ => Option.none
        | _, _ => Option.some ([s1, s2], rng)
      | other => Option.some (other, rng)
    | _, _ => Option.none
  | l => Option.some (l, rng)

/-- The `_STATUS_VERB` table (battle.py lines 828-836) with its
`"afflicted"` default. -/
def statusVerb : StatusEffect → String
  | .burn => "burned"
  | .freeze => "frozen"
  | .paralysis => "paralyzed"
  | .poison => "poisoned"
  | .badly_poisoned => "badly poisoned"
  | .sleep => "put to sleep"
  | .none => "afflicted"

/-- `BattleEngine._handle_status_move` (battle.py lines 764-858).  Returns
the (possibly mutated) attacking and defending teams, the emitted events and
the advanced random stream. -/
def handle_status_move (atk_team : BattleTeam) (move : Move)
    (def_team : BattleTeam) (rng : Rng) :
    BattleTeam × BattleTeam × List TurnEvent × Rng :=
  match atk_team.active_pokemon, def_team.active_pokemon with
  | Option.some atk_mon, Option.some def_mon =>
    let adn := atk_mon.display_name
    let ddn := def_mon.display_name
    let nm := move.name.toLower
    if nm = "protect" then
      (atk_team.setActive { atk_mon with is_protected := true }, def_team,
       [{ event_type := "status", player_id := atk_team.player_id,
          pokemon_name := adn, message := adn ++ " protected itself!" }], rng)
    else if nm = "rest" then
      if atk_mon.current_hp < atk_mon.max_hp then
        let rested :=
          { atk_mon with
            current_hp := atk_mon.max_hp,
            status := StatusEffect.sleep, status_turns := 2 }
        (atk_team.setActive rested, def_team,
         [{ event_type := "status", player_id := atk_team.player_id,
            pokemon_name := adn,
            message := adn ++ " went to sleep and restored HP!" }], rng)
      else
        (atk_team, def_team,
         [{ event_type := "info", player_id := atk_team.player_id,
            pokemon_name := adn,
            message := adn ++ "\x27s HP is already full!" }], rng)
    else if 0 < move.healing_percent then
      let heal_amount := pyInt ((atk_mon.max_hp : ℚ) * (move.healing_percent : ℚ) / 100)
      let (healed, atk_mon') := atk_mon.heal heal_amount
      (atk_team.setActive atk_mon', def_team,
       [{ event_type := "info", player_id := atk_team.player_id,
          pokemon_name := adn,
          message := adn ++ " recovered " ++ toString healed ++ " HP!" }], rng)
    else if move.status_effect ≠ StatusEffect.none then
      if def_mon.status = StatusEffect.none then
        let (missed, rng1) :=
          match move.accuracy with
          | Option.some acc =>
            let (roll, r) := popRandint 1 100 rng
            (decide (acc < roll), r)
          | Option.none => (false, rng)
        if missed then
          (atk_team, def_team,
           [{ event_type := "miss", player_id := atk_team.player_id,
              pokemon_name := adn,
              message := adn ++ "\x27s attack missed!" }], rng1)
        else
          let (def_mon1, rng2) :=
            if move.status_effect = StatusEffect.sleep then
              let (n, r) := popRandint 1 3 rng1
              ({ def_mon with status := move.status_effect, status_turns := n }, r)
            else ({ def_mon with status := move.status_effect }, rng1)
          (atk_team, def_team.setActive def_mon1,
           [{ event_type := "status", player_id := def_team.player_id,
              pokemon_name := ddn,
              message := ddn ++ " was " ++ statusVerb move.status_effect ++ "!" }],
           rng2)
      else
        (atk_team, def_team,
         [{ event_type := "info", player_id := def_team.player_id,
            pokemon_name := ddn,
            message := "But " ++ ddn ++ " is already afflicted..." }], rng)
    else
      (atk_team, def_team,
       [{ event_type := "info", player_id := atk_team.player_id,
          pokemon_name := adn,
          message := adn ++ " used " ++ move.display_name ++
            "!  (No additional effect.)" }], rng)
  | _, _ => (atk_team, def_team, [], rng)

/-- The `move_idx` computation of `_execute_attack` (battle.py lines 624-627):
`action.move_index or 0` (`None` and `0` are both falsy, which coincides with
`getD 0`), defaulted to `0` when at least the list length. -/
def chooseMoveIdx (mi : Option ℤ) (moves : List Move) : ℤ :=
  let idx := mi.getD 0
  if (moves.length : ℤ) ≤ idx then 0 else idx

/-- The move lookup `atk_mon.moves[move_idx]` of `_execute_attack`
(battle.py line 628).  `Option.none` models the `IndexError` raised on an
empty move list or a sufficiently negative submitted index. -/
def chooseMove (mi : Option ℤ) (moves : List Move) : Option Move :=
  pyIndex moves (chooseMoveIdx mi moves)

/-- The Struggle fallback move (battle.py lines 639-643): 50 power, typeless,
25% recoil.  `Move(...)` runs `model_post_init`. -/
def struggleMove : Move :=
  Move.postInit
    { name := "struggle", type := Option.none,
      damage_class := DamageClass.physical, power := Option.some 50,
      accuracy := Option.some 100, pp := 999, drain_percent := -25 }

/-- The PP deduction `move.current_pp -= 1` (battle.py lines 646-647). -/
def Move.decPP (m : Move) : Move :=
  match m.current_pp with
  | Option.some c => { m with current_pp := Option.some (c - 1) }
  | Option.none => m

/-- The tail of the damaging-move path of `_execute_attack` after the
immunity check (battle.py lines 704-762), with the computed damage triple
passed in: damage application, drain/recoil, secondary status.  This part of
the path never raises. -/
def execute_attack_hit (atk_team : BattleTeam) (atk_mon : BattlePokemon)
    (move : Move) (def_team : BattleTeam) (def_mon : BattlePokemon)
    (damage : ℤ) (effectiveness : ℚ) (was_crit : Bool)
    (events : List TurnEvent) (rng1 : Rng) :
    BattleTeam × BattleTeam × List TurnEvent × Rng :=
  let adn := atk_mon.display_name
  let ddn := def_mon.display_name
  let (actual_damage, def_mon1) := def_mon.take_damage damage
  let def_team1 := def_team.setActive def_mon1
  let eff_msg :=
    if 1 < effectiveness then "It\x27s super effective!"
    else if effectiveness < 1 then "It\x27s not very effective..."
    else ""
  let crit_msg := if was_crit then " A critical hit!" else ""
  let events2 := events ++
    [{ event_type := "damage", player_id := def_team.player_id,
       pokemon_name := ddn, damage := actual_damage,
       effectiveness := effectiveness, critical := was_crit,
       message := (ddn ++ " took " ++ toString actual_damage ++ " damage!"
         ++ crit_msg ++ " " ++ eff_msg).trim }]
  let (atk_team2, events3) :=
    if move.drain_percent ≠ 0 then
      let drain_amount :=
        pyInt ((actual_damage : ℚ) * ((|move.drain_percent| : ℤ) : ℚ) / 100)
      if 0 < move.drain_percent then
        let (healed, atk_mon1) := atk_mon.heal drain_amount
        (atk_team.setActive atk_mon1,
         if 0 < healed then events2 ++
           [{ event_type := "info", player_id := atk_team.player_id,
              pokemon_name := adn,
              message := adn ++ " drained " ++ toString healed ++ " HP!" }]
         else events2)
      else
        let (recoil, atk_mon1) := atk_mon.take_damage drain_amount
        (atk_team.setActive atk_mon1,
         if 0 < recoil then events2 ++
           [{ event_type := "info", player_id := atk_team.player_id,
              pokemon_name := adn,
              message := adn ++ " took " ++ toString recoil ++ " recoil damage!" }]
         else events2)
    else (atk_team, events2)
  let effect_chance_truthy : Bool :=
    match move.effect_chance with
    | Option.some c => decide (c ≠ 0)
    | Option.none => false
  if move.status_effect ≠ StatusEffect.none ∧ effect_chance_truthy = true then
    let (roll, rng2) := popRandint 1 100 rng1
    if roll ≤ move.effect_chance.getD 0 ∧ def_mon1.status = StatusEffect.none then
      let (def_mon2, rng3) :=
        if move.status_effect = StatusEffect.sleep then
          let (n, r) := popRandint 1 3 rng2
          ({ def_mon1 with status := move.status_effect, status_turns := n }, r)
        else ({ def_mon1 with status := move.status_effect }, rng2)
      (atk_team2, def_team1.setActive def_mon2, events3 ++
        [{ event_type := "status", player_id := def_team.player_id,
           pokemon_name := ddn,
           message := ddn ++ " was afflicted with " ++
             move.status_effect.value ++ "!" }], rng3)
    else (atk_team2, def_team1, events3, rng2)
  else (atk_team2, def_team1, events3, rng1)

/-- Stage 3 of `_execute_attack` — the damaging-move path (battle.py
lines 673-762): stat pairing (burn halves physical attack), damage
calculation, immunity, then the hit tail above. -/
def execute_attack_damage (atk_team : BattleTeam) (move : Move)
    (def_team : BattleTeam) (events : List TurnEvent) (rng : Rng) :
    Option (BattleTeam × BattleTeam × List TurnEvent × Rng) :=
  match atk_team.active_pokemon, def_team.active_pokemon with
  | Option.some atk_mon, Option.some def_mon =>
    let ddn := def_mon.display_name
    let (atk_stat, def_stat) :=
      if move.damage_class = DamageClass.physical then
        (if atk_mon.status = StatusEffect.burn then atk_mon.atk / 2 else atk_mon.atk,
         def_mon.defense)
      else (atk_mon.spa, def_mon.spd)
    let (res, rng1) :=
      calculate_damage atk_mon.level move atk_stat (max 1 def_stat)
        atk_mon.types def_mon.type1 def_mon.type2 false 1 rng
    if res.2.1 = 0 then
      Option.some (atk_team, def_team, events ++
        [{ event_type := "immune", player_id := def_team.player_id,
           pokemon_name := ddn, effectiveness := 0,
           message := "It doesn\x27t affect " ++ ddn ++ "..." }], rng1)
    else
      Option.some (execute_attack_hit atk_team atk_mon move def_team def_mon
        res.1 res.2.1 res.2.2 events rng1)
  | _, _ => Option.some (atk_team, def_team, events, rng)

/-- Stage 2 of `_execute_attack` — move selection, PP handling, the attack
event, the status-move branch and the accuracy roll (battle.py
lines 624-671). -/
def execute_attack_move (atk_team : BattleTeam) (action : BattleAction)
    (def_team : BattleTeam) (events : List TurnEvent) (rng : Rng) :
    Option (BattleTeam × BattleTeam × List TurnEvent × Rng) :=
  match atk_team.active_pokemon, def_team.active_pokemon with
  | Option.some atk_mon, Option.some def_mon =>
    let adn := atk_mon.display_name
    match chooseMove action.move_index atk_mon.moves with
    | Option.none => Option.none
    | Option.some move0 =>
      let noPP :=
        match move0.current_pp with
        | Option.some c => decide (c ≤ 0)
        | Option.none => false
      let ppEvents : List TurnEvent :=
        if noPP then
          [{ event_type := "info", player_id := atk_team.player_id,
             pokemon_name := adn,
             message := adn ++ " has no PP left for " ++ move0.display_name ++
               "! It used Struggle!" }]
        else []
      let (atk_team1, move) :=
        if noPP then (atk_team, struggleMove.decPP)
        else
          let m' := move0.decPP
          let idx := pyIndexNat atk_mon.moves (chooseMoveIdx action.move_index atk_mon.moves)
          (atk_team.setActive { atk_mon with moves := atk_mon.moves.set idx m' }, m')
      let events1 := events ++ ppEvents ++
        [{ event_type := "attack", player_id := atk_team.player_id,
           pokemon_name := adn, target_name := def_mon.display_name,
           move_name := move.display_name }]
      if move.damage_class = DamageClass.status then
        let (aT, dT, sEvents, rng1) := handle_status_move atk_team1 move def_team rng
        Option.some (aT, dT, events1 ++ sEvents, rng1)
      else
        match move.accuracy with
        | Option.some acc =>
          let (roll, rng1) := popRandint 1 100 rng
          if acc < roll then
            Option.some (atk_team1, def_team, events1 ++
              [{ event_type := "miss", player_id := atk_team.player_id,
                 pokemon_name := adn,
                 message := adn ++ "\x27s attack missed!" }], rng1)
          else execute_attack_damage atk_team1 move def_team events1 rng1
        | Option.none => execute_attack_damage atk_team1 move def_team events1 rng
  | _, _ => Option.some (atk_team, def_team, events, rng)

/-- The paralysis gate of `_execute_attack` (battle.py lines 611-622),
entered with the freeze gate already resolved. -/
def execute_attack_para (atk_team2 : BattleTeam) (action : BattleAction)
    (def_team : BattleTeam) (events2 : List TurnEvent) (rng2 : Rng) :
    Option (BattleTeam × BattleTeam × List TurnEvent × Rng) :=
  match atk_team2.active_pokemon with
  | Option.some atk_mon2 =>
    if atk_mon2.status = StatusEffect.paralysis then
      let (q, rng3) := popRandom rng2
      if q < 1/4 then
        Option.some (atk_team2, def_team, events2 ++
          [{ event_type := "status", player_id := atk_team2.player_id,
             pokemon_name := atk_mon2.display_name,
             message := atk_mon2.display_name ++
               " is paralyzed and can\x27t move!" }], rng3)
      else execute_attack_move atk_team2 action def_team events2 rng3
    else execute_attack_move atk_team2 action def_team events2 rng2
  | Option.none => execute_attack_move atk_team2 action def_team events2 rng2

/-- The freeze gate of `_execute_attack` (battle.py lines 594-609), entered
after the sleep gate with the sleep mutation already written back, followed
by the paralysis gate above. -/
def execute_attack_gate2 (atk_team : BattleTeam) (action : BattleAction)
    (def_team : BattleTeam) (events : List TurnEvent) (rng : Rng) :
    Option (BattleTeam × BattleTeam × List TurnEvent × Rng) :=
  match atk_team.active_pokemon with
  | Option.some atk_mon =>
    let adn := atk_mon.display_name
    if atk_mon.status = StatusEffect.freeze then
      let (q, rng1) := popRandom rng
      if q < 1/5 then
        execute_attack_para
          (atk_team.setActive { atk_mon with status := StatusEffect.none })
          action def_team
          (events ++
            [{ event_type := "status", player_id := atk_team.player_id,
               pokemon_name := adn, message := adn ++ " thawed out!" }]) rng1
      else
        Option.some (atk_team, def_team, events ++
          [{ event_type := "status", player_id := atk_team.player_id,
             pokemon_name := adn, message := adn ++ " is frozen solid!" }], rng1)
    else execute_attack_para atk_team action def_team events rng
  | Option.none => execute_attack_para atk_team action def_team events rng

/-- `BattleEngine._execute_attack` (battle.py lines 560-762): the sleep gate,
then freeze/paralysis gates, then the move itself.  `Option.none` models an
`IndexError` from the move subscript. -/
def execute_attack (atk_team : BattleTeam) (action : BattleAction)
    (def_team : BattleTeam) (rng : Rng) :
    Option (BattleTeam × BattleTeam × List TurnEvent × Rng) :=
  match atk_team.active_pokemon, def_team.active_pokemon with
  | Option.some atk_mon, Option.some _ =>
    let adn := atk_mon.display_name
    if atk_mon.status = StatusEffect.sleep then
      let atk_mon1 := { atk_mon with status_turns := atk_mon.status_turns - 1 }
      if atk_mon1.status_turns ≤ 0 then
        execute_attack_gate2
          (atk_team.setActive { atk_mon1 with status := StatusEffect.none })
          action def_team
          [{ event_type := "status", player_id := atk_team.player_id,
             pokemon_name := adn, message := adn ++ " woke up!" }] rng
      else
        Option.some (atk_team.setActive atk_mon1, def_team,
          [{ event_type := "status", player_id := atk_team.player_id,
             pokemon_name := adn, message := adn ++ " is fast asleep!" }], rng)
    else execute_attack_gate2 atk_team action def_team [] rng
  | _, _ => Option.some (atk_team, def_team, [], rng)

/-- The post-attack faint handling of `resolve_turn` for one side (battle.py
lines 458-495): emit a faint event for a newly fainted active pokemon and
auto-switch to the next alive roster member when one exists. -/
def faint_check (team : BattleTeam) : BattleTeam × List TurnEvent :=
  match team.active_pokemon with
  | Option.some mon =>
    if mon.is_fainted then
      let faintEv : TurnEvent :=
        { event_type := "faint", player_id := team.player_id,
          pokemon_name := mon.display_name,
          message := mon.display_name ++ " fainted!" }
      match team.next_alive_index with
      | Option.some idx =>
        let team' := { team with active_index := idx }
        let new_name := match team'.active_pokemon with
          | Option.some m => m.display_name
          | Option.none => "?"
        (team', [faintEv,
          { event_type := "switch", player_id := team.player_id,
            pokemon_name := new_name,
            message := team.trainer_name ++ " sent out " ++ new_name ++ "!" }])
      | Option.none => (team, [faintEv])
    else (team, [])
  | Option.none => (team, [])

/-- One iteration of the attack-execution loop of `resolve_turn` (battle.py
lines 437-495).  `s = true` means side 1 attacks.  Skips fainted or missing
combatants, honours Protect, executes the attack and handles faints. -/
def attack_step (a1 a2 : BattleAction) (s : Bool) (t1 t2 : BattleTeam)
    (rng : Rng) : Option (BattleTeam × BattleTeam × List TurnEvent × Rng) :=
  let atkT := if s then t1 else t2
  let defT := if s then t2 else t1
  let action := if s then a1 else a2
  match atkT.active_pokemon, defT.active_pokemon with
  | Option.some atk_mon, Option.some def_mon =>
    if atk_mon.is_fainted then Option.some (t1, t2, [], rng)
    else if def_mon.is_fainted then Option.some (t1, t2, [], rng)
    else if def_mon.is_protected then
      Option.some (t1, t2,
        [{ event_type := "info", player_id := defT.player_id,
           pokemon_name := def_mon.display_name,
           message := def_mon.display_name ++ " protected itself!" }], rng)
    else
      match execute_attack atkT action defT rng with
      | Option.some (atkT1, defT1, evs, rng1) =>
        let (atkT2, evA) := faint_check atkT1
        let (defT2, evD) := faint_check defT1
        if s then Option.some (atkT2, defT2, evs ++ evA ++ evD, rng1)
        else Option.some (defT2, atkT2, evs ++ evA ++ evD, rng1)
      | Option.none => Option.none
  | _, _ => Option.some (t1, t2, [], rng)

/-- The attack-execution loop of `resolve_turn` over the ordered attacker
list. -/
def attack_phase (a1 a2 : BattleAction) :
    List Bool → BattleTeam → BattleTeam → List TurnEvent → Rng →
    Option (BattleTeam × BattleTeam × List TurnEvent × Rng)
  | [], t1, t2, evs, rng => Option.some (t1, t2, evs, rng)
  | s :: rest, t1, t2, evs, rng =>
    match attack_step a1 a2 s t1 t2 rng with
    | Option.some (t1', t2', stepEvs, rng') =>
      attack_phase a1 a2 rest t1' t2' (evs ++ stepEvs) rng'
    | Option.none => Option.none

/-- `BattleEngine._apply_status_damage` (battle.py lines 860-905): end-of-turn
burn, poison and badly-poisoned damage, then clear the Protect flag. -/
def apply_status_damage (team : BattleTeam) : BattleTeam × List TurnEvent :=
  match team.active_pokemon with
  | Option.some mon =>
    if mon.is_fainted then (team, [])
    else
      let dn := mon.display_name
      let (mon1, evs) :=
        if mon.status = StatusEffect.burn then
          let dmg := max 1 (mon.max_hp / 16)
          let (_, m') := mon.take_damage dmg
          (m', [{ event_type := "status", player_id := team.player_id,
                  pokemon_name := dn, damage := dmg,
                  message := dn ++ " was hurt by its burn! (-" ++
                    toString dmg ++ " HP)" }])
        else if mon.status = StatusEffect.poison then
          let dmg := max 1 (mon.max_hp / 8)
          let (_, m') := mon.take_damage dmg
          (m', [{ event_type := "status", player_id := team.player_id,
                  pokemon_name := dn, damage := dmg,
                  message := dn ++ " was hurt by poison! (-" ++
                    toString dmg ++ " HP)" }])
        else if mon.status = StatusEffect.badly_poisoned then
          let m0 := { mon with status_turns := mon.status_turns + 1 }
          let dmg := max 1 (mon.max_hp * m0.status_turns / 16)
          let (_, m') := m0.take_damage dmg
          (m', [{ event_type := "status", player_id := team.player_id,
                  pokemon_name := dn, damage := dmg,
                  message := dn ++ " was badly hurt by poison! (-" ++
                    toString dmg ++ " HP)" }])
        else (mon, [])
      (team.setActive { mon1 with is_protected := false }, evs)
  | Option.none => (team, [])

/-- The end-of-turn block of `resolve_turn` for one side (battle.py
lines 498-519): status damage, then faint handling with auto-switch. -/
def end_of_turn_for (team : BattleTeam) : BattleTeam × List TurnEvent :=
  match team.active_pokemon with
  | Option.some mon =>
    if mon.is_fainted then (team, [])
    else
      let (team1, evs) := apply_status_damage team
      match team1.active_pokemon with
      | Option.some mon1 =>
        if mon1.is_fainted then
          let faintEv : TurnEvent :=
            { event_type := "faint", player_id := team.player_id,
              pokemon_name := mon1.display_name,
              message := mon1.display_name ++ " fainted from " ++
                mon1.status.value ++ "!" }
          match team1.next_alive_index with
          | Option.some idx =>
            let team2 := { team1 with active_index := idx }
            let new_name := match team2.active_pokemon with
              | Option.some m => m.display_name
              | Option.none => "?"
            (team2, evs ++ [faintEv,
              { event_type := "switch", player_id := team.player_id,
                pokemon_name := new_name,
                message := team.trainer_name ++ " sent out " ++ new_name ++ "!" }])
          | Option.none => (team1, evs ++ [faintEv])
        else (team1, evs)
      | Option.none => (team1, evs)
  | Option.none => (team, [])

/-- `BattleEngine.resolve_turn` (battle.py lines 332-558).  `now` is the
clock value written into `updated_at`; the return value is `Option.none`
exactly when the Python code would raise (an assert failure on an
inconsistent state, or an `IndexError` from a pathological submitted move
index / empty move list).  On the forfeit path the source returns before the
turn-log append and the `updated_at` refresh, which is mirrored here. -/
def resolve_turn (now : ℕ) (st : BattleState) (rng : Rng) :
    Option (BattleState × List TurnEvent) :=
  if st.both_actions_submitted = false then Option.some (st, [])
  else
    match st.team1, st.team2 with
    | Option.some team1, Option.some team2 =>
      match team1.action, team2.action with
      | Option.some action1, Option.some action2 =>
        if action1.action_type = BattleActionType.forfeit then
          Option.some ({ st with
            turn_number := st.turn_number + 1,
            status := BattleStatus.forfeit,
            winner_id := Option.some team2.player_id,
            loser_id := Option.some team1.player_id,
            team1 := Option.some { team1 with action := Option.none },
            team2 := Option.some { team2 with action := Option.none } },
            [{ event_type := "forfeit", player_id := team1.player_id,
               message := team1.trainer_name ++ " forfeited the battle!" }])
        else if action2.action_type = BattleActionType.forfeit then
          Option.some ({ st with
            turn_number := st.turn_number + 1,
            status := BattleStatus.forfeit,
            winner_id := Option.some team1.player_id,
            loser_id := Option.some team2.player_id,
            team1 := Option.some { team1 with action := Option.none },
            team2 := Option.some { team2 with action := Option.none } },
            [{ event_type := "forfeit", player_id := team2.player_id,
               message := team2.trainer_name ++ " forfeited the battle!" }])
        else
          let (team1a, swEv1) := process_switch team1 action1
          let (team2a, swEv2) := process_switch team2 action2
          match order_attackers team1a team2a action1 action2 rng with
          | Option.some (order, rng1) =>
            match attack_phase action1 action2 order team1a team2a [] rng1 with
            | Option.some (team1b, team2b, atkEvs, _rng2) =>
              let (team1c, eotEv1) := end_of_turn_for team1b
              let (team2c, eotEv2) := end_of_turn_for team2b
              let t1_out := team1c.has_usable_pokemon = false
              let t2_out := team2c.has_usable_pokemon = false
              let (newStatus, newWinner, newLoser, winEvs) :
                  BattleStatus × Option String × Option String × List TurnEvent :=
                if t1_out ∧ t2_out then
                  (BattleStatus.finished, Option.none, Option.none,
                   [{ event_type := "info",
                      message := "Both sides are out of usable Pokemon -- it\x27s a draw!" }])
                else if t1_out then
                  (BattleStatus.finished, Option.some team2c.player_id,
                   Option.some team1c.player_id,
                   [{ event_type := "info",
                      message := team2c.trainer_name ++ " wins the battle!" }])
                else if t2_out then
                  (BattleStatus.finished, Option.some team1c.player_id,
                   Option.some team2c.player_id,
                   [{ event_type := "info",
                      message := team1c.trainer_name ++ " wins the battle!" }])
                else (st.status, st.winner_id, st.loser_id, [])
              let events := swEv1 ++ swEv2 ++ atkEvs ++ eotEv1 ++ eotEv2 ++ winEvs
              Option.some ({ st with
                turn_number := st.turn_number + 1,
                status := newStatus,
                winner_id := newWinner,
                loser_id := newLoser,
                team1 := Option.some { team1c with action := Option.none },
                team2 := Option.some { team2c with action := Option.none },
                turn_log := st.turn_log ++ [events],
                updated_at := now }, events)
            | Option.none => Option.none
          | Option.none => Option.none
      | _, _ => Option.none
    | _, _ => Option.none

-- ---------------------------------------------------------------------------
-- Concrete sample data for witnesses and counterexamples
-- ---------------------------------------------------------------------------

/-- A plain 40-power normal physical move (the shape of `tackle` in the
default move pool, moves.py line 357). -/
def tackle : Move :=
  Move.postInit
    { name := "tackle", type := Option.some PType.normal,
      damage_class := DamageClass.physical, power := Option.some 40,
      accuracy := Option.some 100, pp := 35 }

/-- A second distinct move for index tests (`quick-attack`, moves.py
line 358). -/
def quickAttack : Move :=
  Move.postInit
    { name := "quick-attack", type := Option.some PType.normal,
      damage_class := DamageClass.physical, power := Option.some 40,
      accuracy := Option.some 100, pp := 30, priority := 1 }

/-- A 100-power neutral special move used by the C9 counterexample. -/
def bigMove : Move :=
  Move.postInit
    { name := "big-move", type := Option.some PType.normal,
      damage_class := DamageClass.special, power := Option.some 100,
      accuracy := Option.some 100, pp := 10 }

/-- A healthy single-typed combatant. -/
def exMonA : BattlePokemon :=
  { pokemon_id := 1, pokedex_id := 1, name := "alpha",
    type1 := PType.normal, max_hp := 100, current_hp := 100,
    atk := 50, defense := 50, spa := 50, spd := 50, spe := 60,
    moves := [tackle] }

/-- A second healthy combatant, slower than `exMonA`. -/
def exMonB : BattlePokemon :=
  { pokemon_id := 2, pokedex_id := 2, name := "beta",
    type1 := PType.normal, max_hp := 100, current_hp := 100,
    atk := 50, defense := 50, spa := 50, spd := 50, spe := 50,
    moves := [tackle] }

/-- Side 1 with a submitted attack. -/
def exTeam1 : BattleTeam :=
  { player_id := "p1", trainer_name := "Ann", roster := [exMonA],
    action := Option.some { action_type := BattleActionType.attack,
                            move_index := Option.some 0, player_id := "p1" } }

/-- Side 2 with a submitted attack. -/
def exTeam2 : BattleTeam :=
  { player_id := "p2", trainer_name := "Bob", roster := [exMonB],
    action := Option.some { action_type := BattleActionType.attack,
                            move_index := Option.some 0, player_id := "p2" } }

/-- An active battle with both attack actions submitted. -/
def exSt : BattleState :=
  { challenger_id := "p1", opponent_id := "p2",
    status := BattleStatus.active, updated_at := 5,
    team1 := Option.some exTeam1, team2 := Option.some exTeam2 }

/-- The same battle but with side 1 submitting a forfeit. -/
def exStForfeit : BattleState :=
  { challenger_id := "p1", opponent_id := "p2",
    status := BattleStatus.active, updated_at := 5,
    team1 := Option.some { exTeam1 with
      action := Option.some { action_type := BattleActionType.forfeit,
                              player_id := "p1" } },
    team2 := Option.some exTeam2 }

/-- A battle with no opponent team yet (resolution precondition fails). -/
def exStNoTeam : BattleState :=
  { challenger_id := "p1", opponent_id := "p2",
    status := BattleStatus.team_select,
    team1 := Option.some exTeam1, team2 := Option.none }

/-- A badly-poisoned combatant with a tiny health pool (max 15). -/
def exMonToxic : BattlePokemon :=
  { pokemon_id := 3, pokedex_id := 3, name := "gamma",
    type1 := PType.poison, max_hp := 15, current_hp := 15,
    atk := 50, defense := 50, spa := 50, spd := 50, spe := 50,
    moves := [tackle], status := StatusEffect.badly_poisoned }

/-- A one-member team holding the badly-poisoned combatant. -/
def exTeamToxic : BattleTeam :=
  { player_id := "p3", trainer_name := "Cid", roster := [exMonToxic] }

-- ---------------------------------------------------------------------------
-- Helper lemmas: pyInt, pyRound, the type chart
-- ---------------------------------------------------------------------------

lemma pyInt_nonneg {q : ℚ} (h : 0 ≤ q) : 0 ≤ pyInt q := by
  unfold pyInt
  rw [if_pos h]
  exact Int.floor_nonneg.mpr h

lemma ceil_nonpos {q : ℚ} (h : q ≤ 0) : ⌈q⌉ ≤ 0 :=
  Int.ceil_le.mpr (by exact_mod_cast h)

lemma pyInt_nonpos {q : ℚ} (h : q ≤ 0) : pyInt q ≤ 0 := by
  unfold pyInt
  split
  · have hq : q = 0 := le_antisymm h (by assumption)
    simp [hq]
  · exact ceil_nonpos h

lemma pyInt_mono {x y : ℚ} (h : x ≤ y) : pyInt x ≤ pyInt y := by
  unfold pyInt
  split
  · rw [if_pos (le_trans (by assumption) h)]
    exact Int.floor_mono h
  · rename_i hx
    split
    · exact le_trans (ceil_nonpos (le_of_lt (not_le.mp hx)))
        (Int.floor_nonneg.mpr (by assumption))
    · exact Int.ceil_mono h

lemma max_one_pyInt_scale (x : ℚ) : max 1 (pyInt x) ≤ max 1 (pyInt (3/2 * x)) := by
  rcases le_or_lt 0 x with hx | hx
  · exact max_le_max le_rfl (pyInt_mono (by linarith))
  · have hL : pyInt x ≤ 0 := pyInt_nonpos (le_of_lt hx)
    have hR : pyInt (3/2 * x) ≤ 0 := pyInt_nonpos (by linarith)
    rw [max_eq_left (le_trans hL zero_le_one), max_eq_left (le_trans hR zero_le_one)]

lemma pyRound_eq (q : ℚ) :
    pyRound q = if q - ⌊q⌋ < 1/2 then ⌊q⌋
      else if 1/2 < q - ⌊q⌋ then ⌊q⌋ + 1
      else if 2 ∣ ⌊q⌋ then ⌊q⌋ else ⌊q⌋ + 1 := rfl

lemma floor_le_pyRound (q : ℚ) : ⌊q⌋ ≤ pyRound q := by
  rw [pyRound_eq]
  split
  · exact le_refl _
  · split
    · omega
    · split <;> omega

lemma intCast_le_pyRound {n : ℤ} {q : ℚ} (h : (n : ℚ) ≤ q) : n ≤ pyRound q :=
  le_trans (Int.le_floor.mpr h) (floor_le_pyRound q)

lemma pyRound_le_intCast {n : ℤ} {q : ℚ} (h : q ≤ (n : ℚ)) : pyRound q ≤ n := by
  rw [pyRound_eq]
  have hfl : ⌊q⌋ ≤ n := by
    have := Int.floor_mono h
    rwa [Int.floor_intCast] at this
  rcases lt_or_eq_of_le hfl with hlt | heq
  · split
    · omega
    · split
      · omega
      · split <;> omega
  · have hq : q = (n : ℚ) := by
      refine le_antisymm h ?_
      rw [← heq]
      exact Int.floor_le q
    rw [hq, Int.floor_intCast]
    norm_num

lemma pyRound_neg (q : ℚ) : pyRound (-q) = -(pyRound q) := by
  have hq1 : (⌊q⌋ : ℚ) ≤ q := Int.floor_le q
  have hq2 : q < ⌊q⌋ + 1 := Int.lt_floor_add_one q
  rcases eq_or_lt_of_le hq1 with hA | hB
  · obtain ⟨m, hm⟩ : ∃ m : ℤ, q = (m : ℚ) := ⟨⌊q⌋, hA.symm⟩
    subst hm
    rw [pyRound_eq, pyRound_eq, ← Int.cast_neg, Int.floor_intCast, Int.floor_intCast]
    norm_num
  · have hnegfloor : ⌊-q⌋ = -⌊q⌋ - 1 := by
      rw [Int.floor_eq_iff]
      constructor
      · push_cast
        linarith
      · push_cast
        linarith
    rw [pyRound_eq, pyRound_eq, hnegfloor]
    have h1 : -q - ((-⌊q⌋ - 1 : ℤ) : ℚ) = 1 - (q - ⌊q⌋) := by
      push_cast
      ring
    rw [h1]
    rcases lt_trichotomy (q - ⌊q⌋) (1/2) with h | h | h
    · have hgt : ¬ (1 - (q - (⌊q⌋ : ℚ)) < 1/2) := by
        intro hcon
        linarith
      have hgt2 : (1:ℚ)/2 < 1 - (q - (⌊q⌋ : ℚ)) := by linarith
      rw [if_neg hgt, if_pos hgt2, if_pos h]
      omega
    · rw [h]
      norm_num
      split_ifs <;> omega
    · have hlt : 1 - (q - (⌊q⌋ : ℚ)) < 1/2 := by linarith
      have hgt : ¬ (q - (⌊q⌋ : ℚ) < 1/2) := by
        intro hcon
        linarith
      rw [if_pos hlt, if_neg hgt, if_pos h]
      omega

lemma TYPE_CHART_cases (a d : PType) :
    TYPE_CHART a d = 0 ∨ TYPE_CHART a d = 1/2 ∨ TYPE_CHART a d = 1 ∨
      TYPE_CHART a d = 2 := by
  unfold TYPE_CHART
  split_ifs <;> simp

lemma TYPE_CHART_nonneg (a d : PType) : 0 ≤ TYPE_CHART a d := by
  rcases TYPE_CHART_cases a d with h | h | h | h <;> rw [h] <;> norm_num

lemma chart_lookup_nonneg (mt : Option PType) (d : PType) : 0 ≤ chart_lookup mt d := by
  unfold chart_lookup
  cases mt
  · norm_num
  · exact TYPE_CHART_nonneg _ _

lemma get_type_effectiveness_nonneg (mt : Option PType) (d1 : PType)
    (d2 : Option PType) : 0 ≤ get_type_effectiveness mt d1 d2 := by
  unfold get_type_effectiveness
  cases d2
  · exact chart_lookup_nonneg mt d1
  · exact mul_nonneg (chart_lookup_nonneg mt d1) (chart_lookup_nonneg mt _)

/-- C4: for every attacking type and every single- or dual-typed defender,
`get_type_effectiveness` is the product of the two independent single-type
chart lookups (a single-typed defender uses one lookup); the result lies in
{0, 1/4, 1/2, 1, 2, 4}; a 0 from either defending type makes the whole
result 0; and the function is deterministic (recomputation agrees). -/
theorem type_effectiveness_spec (a d1 d2 : PType) :
    (get_type_effectiveness (Option.some a) d1 (Option.some d2) =
        TYPE_CHART a d1 * TYPE_CHART a d2 ∧
      get_type_effectiveness (Option.some a) d1 Option.none = TYPE_CHART a d1) ∧
    (get_type_effectiveness (Option.some a) d1 (Option.some d2) ∈
        ({0, 1/4, 1/2, 1, 2, 4} : Set ℚ) ∧
      get_type_effectiveness (Option.some a) d1 Option.none ∈
        ({0, 1/4, 1/2, 1, 2, 4} : Set ℚ)) ∧
    ((TYPE_CHART a d1 = 0 ∨ TYPE_CHART a d2 = 0) →
      get_type_effectiveness (Option.some a) d1 (Option.some d2) = 0) ∧
    (get_type_effectiveness (Option.some a) d1 (Option.some d2) =
      get_type_effectiveness (Option.some a) d1 (Option.some d2)) := by
  have hdual : get_type_effectiveness (Option.some a) d1 (Option.some d2) =
      TYPE_CHART a d1 * TYPE_CHART a d2 := rfl
  have hsingle : get_type_effectiveness (Option.some a) d1 Option.none =
      TYPE_CHART a d1 := rfl
  refine ⟨⟨hdual, hsingle⟩, ⟨?_, ?_⟩, ?_, rfl⟩
  · rw [hdual]
    rcases TYPE_CHART_cases a d1 with h1 | h1 | h1 | h1 <;>
      rcases TYPE_CHART_cases a d2 with h2 | h2 | h2 | h2 <;>
      rw [h1, h2] <;> norm_num
  · rw [hsingle]
    rcases TYPE_CHART_cases a d1 with h1 | h1 | h1 | h1 <;> rw [h1] <;> norm_num
  · intro h
    rw [hdual]
    rcases h with h | h <;> rw [h] <;> ring

/-- Witness for C4 at a concrete immune matchup: electric against
ground/flying has a 0 first-type lookup, and the combined effectiveness
is 0. -/
theorem type_effectiveness_spec_witness :
    (TYPE_CHART PType.electric PType.ground = 0 ∨
      TYPE_CHART PType.electric PType.flying = 0) ∧
    get_type_effectiveness (Option.some PType.electric) PType.ground
      (Option.some PType.flying) = 0 :=
  ⟨Or.inl (by decide),
    (type_effectiveness_spec PType.electric PType.ground PType.flying).2.2.1
      (Or.inl (by decide))⟩

-- ---------------------------------------------------------------------------
-- Lemmas about calculate_damage_core
-- ---------------------------------------------------------------------------

lemma core_zero_power (lvl : ℤ) (mv : Move) (a d : ℤ) (ts : List PType)
    (d1 : PType) (d2 : Option PType) (crit : Bool) (wm : ℚ) (cr : Bool) (rf : ℚ)
    (h : mv.power = Option.none ∨ mv.power = Option.some 0) :
    calculate_damage_core lvl mv a d ts d1 d2 crit wm cr rf = (0, 1, false) := by
  unfold calculate_damage_core
  rcases h with h | h <;> rw [h]
  simp

/-- Shape of `calculate_damage_core` on a move with nonzero power. -/
lemma core_pos_power (lvl : ℤ) (mv : Move) (a d : ℤ) (ts : List PType)
    (d1 : PType) (d2 : Option PType) (crit : Bool) (wm : ℚ) (cr : Bool) (rf : ℚ)
    {p : ℤ} (hp : mv.power = Option.some p) (hp0 : p ≠ 0) :
    calculate_damage_core lvl mv a d ts d1 d2 crit wm cr rf =
      ((if 0 < get_type_effectiveness mv.type d1 d2 then
          max 1 (pyInt ((((2 * (lvl : ℚ) / 5 + 2) * (p : ℚ) * (a : ℚ) / (d : ℚ)) / 50 + 2) *
            (stab_bonus mv ts * get_type_effectiveness mv.type d1 d2 *
              (if (crit || cr) = true then 3/2 else 1) * rf * wm)))
        else 0),
       get_type_effectiveness mv.type d1 d2, crit || cr) := by
  unfold calculate_damage_core
  rw [hp]
  dsimp only
  rw [if_neg hp0]

lemma core_immune (lvl : ℤ) (mv : Move) (a d : ℤ) (ts : List PType)
    (d1 : PType) (d2 : Option PType) (crit : Bool) (wm : ℚ) (cr : Bool) (rf : ℚ)
    {p : ℤ} (hp : mv.power = Option.some p) (hp0 : p ≠ 0)
    (heff : get_type_effectiveness mv.type d1 d2 = 0) :
    (calculate_damage_core lvl mv a d ts d1 d2 crit wm cr rf).1 = 0 ∧
    (calculate_damage_core lvl mv a d ts d1 d2 crit wm cr rf).2.1 = 0 := by
  rw [core_pos_power lvl mv a d ts d1 d2 crit wm cr rf hp hp0]
  refine ⟨?_, heff⟩
  simp only
  rw [if_neg (by rw [heff]; exact lt_irrefl 0)]

lemma core_min_damage (lvl : ℤ) (mv : Move) (a d : ℤ) (ts : List PType)
    (d1 : PType) (d2 : Option PType) (crit : Bool) (wm : ℚ) (cr : Bool) (rf : ℚ)
    {p : ℤ} (hp : mv.power = Option.some p) (hp0 : p ≠ 0)
    (heff : get_type_effectiveness mv.type d1 d2 ≠ 0) :
    1 ≤ (calculate_damage_core lvl mv a d ts d1 d2 crit wm cr rf).1 := by
  rw [core_pos_power lvl mv a d ts d1 d2 crit wm cr rf hp hp0]
  simp only
  rw [if_pos (lt_of_le_of_ne (get_type_effectiveness_nonneg mv.type d1 d2) (Ne.symm heff))]
  exact le_max_left 1 _

lemma core_damage_nonneg (lvl : ℤ) (mv : Move) (a d : ℤ) (ts : List PType)
    (d1 : PType) (d2 : Option PType) (crit : Bool) (wm : ℚ) (cr : Bool) (rf : ℚ) :
    0 ≤ (calculate_damage_core lvl mv a d ts d1 d2 crit wm cr rf).1 := by
  rcases hmv : mv.power with _ | p
  · rw [core_zero_power lvl mv a d ts d1 d2 crit wm cr rf (Or.inl hmv)]
  · by_cases hp0 : p = 0
    · rw [core_zero_power lvl mv a d ts d1 d2 crit wm cr rf (Or.inr (hp0 ▸ hmv))]
    · rw [core_pos_power lvl mv a d ts d1 d2 crit wm cr rf hmv hp0]
      simp only
      split
      · exact le_trans zero_le_one (le_max_left 1 _)
      · exact le_refl 0

lemma crit_branch_le (eff B S rf wm : ℚ) (cr : Bool) :
    (if 0 < eff then
        max 1 (pyInt (B * (S * eff * (if cr = true then (3:ℚ)/2 else 1) * rf * wm)))
      else 0) ≤
    (if 0 < eff then
        max 1 (pyInt (B * (S * eff * ((3:ℚ)/2) * rf * wm)))
      else 0) := by
  cases cr
  · split
    · have hE : B * (S * eff * (3/2 : ℚ) * rf * wm) =
          3/2 * (B * (S * eff * (if (false : Bool) = true then (3:ℚ)/2 else 1) * rf * wm)) := by
        norm_num
        ring
      rw [hE]
      exact max_one_pyInt_scale _
    · exact le_refl 0
  · split
    · rw [if_pos rfl]
    · exact le_refl 0

lemma core_crit_ge (lvl : ℤ) (mv : Move) (a d : ℤ) (ts : List PType)
    (d1 : PType) (d2 : Option PType) (wm : ℚ) (cr : Bool) (rf : ℚ) :
    (calculate_damage_core lvl mv a d ts d1 d2 false wm cr rf).1 ≤
    (calculate_damage_core lvl mv a d ts d1 d2 true wm cr rf).1 := by
  rcases hmv : mv.power with _ | p
  · rw [core_zero_power lvl mv a d ts d1 d2 false wm cr rf (Or.inl hmv),
      core_zero_power lvl mv a d ts d1 d2 true wm cr rf (Or.inl hmv)]
  · by_cases hp0 : p = 0
    · rw [core_zero_power lvl mv a d ts d1 d2 false wm cr rf (Or.inr (hp0 ▸ hmv)),
        core_zero_power lvl mv a d ts d1 d2 true wm cr rf (Or.inr (hp0 ▸ hmv))]
    · rw [core_pos_power lvl mv a d ts d1 d2 false wm cr rf hmv hp0,
        core_pos_power lvl mv a d ts d1 d2 true wm cr rf hmv hp0]
      exact crit_branch_le (get_type_effectiveness mv.type d1 d2)
        ((2 * (lvl : ℚ) / 5 + 2) * (p : ℚ) * (a : ℚ) / (d : ℚ) / 50 + 2)
        (stab_bonus mv ts) rf wm cr

/-- `calculate_damage` returns a `calculate_damage_core` value for some pair
of drawn rolls. -/
lemma calculate_damage_shape (lvl : ℤ) (mv : Move) (a d : ℤ) (ts : List PType)
    (d1 : PType) (d2 : Option PType) (crit : Bool) (wm : ℚ) (rng : Rng) :
    ∃ cr rf rng', calculate_damage lvl mv a d ts d1 d2 crit wm rng =
      (calculate_damage_core lvl mv a d ts d1 d2 crit wm cr rf, rng') := by
  rcases hmv : mv.power with _ | p
  · refine ⟨false, 0, rng, ?_⟩
    rw [core_zero_power lvl mv a d ts d1 d2 crit wm false 0 (Or.inl hmv)]
    unfold calculate_damage
    rw [hmv]
  · by_cases hp0 : p = 0
    · refine ⟨false, 0, rng, ?_⟩
      rw [core_zero_power lvl mv a d ts d1 d2 crit wm false 0 (Or.inr (hp0 ▸ hmv))]
      unfold calculate_damage
      rw [hmv]
      dsimp only
      rw [if_pos hp0]
    · refine ⟨(if crit then (false, rng) else critDraw rng).1,
        (popUniform (17/20) 1 (if crit then (false, rng) else critDraw rng).2).1,
        (popUniform (17/20) 1 (if crit then (false, rng) else critDraw rng).2).2, ?_⟩
      unfold calculate_damage
      rw [hmv]
      dsimp only
      rw [if_neg hp0]

/-- C3: `calculate_damage` returns `(0, 1.0, False)` for every move whose
power is absent or zero; for every move with positive power it returns
damage ≥ 1 whenever the type-effectiveness multiplier is nonzero, and
returns damage exactly 0 with reported effectiveness 0.0 whenever the
defender matchup is immune.  (`hd` rules out the `ZeroDivisionError` input
the Python code would die on.) -/
theorem calculate_damage_spec (lvl : ℤ) (mv : Move) (a d : ℤ) (ts : List PType)
    (d1 : PType) (d2 : Option PType) (crit : Bool) (wm : ℚ) (rng : Rng)
    (hd : d ≠ 0) :
    ((mv.power = Option.none ∨ mv.power = Option.some 0) →
      (calculate_damage lvl mv a d ts d1 d2 crit wm rng).1 = (0, 1, false)) ∧
    (∀ p, mv.power = Option.some p → 0 < p →
      (get_type_effectiveness mv.type d1 d2 ≠ 0 →
        1 ≤ (calculate_damage lvl mv a d ts d1 d2 crit wm rng).1.1) ∧
      (get_type_effectiveness mv.type d1 d2 = 0 →
        (calculate_damage lvl mv a d ts d1 d2 crit wm rng).1.1 = 0 ∧
        (calculate_damage lvl mv a d ts d1 d2 crit wm rng).1.2.1 = 0)) := by
  obtain ⟨cr, rf, rng', hshape⟩ :=
    calculate_damage_shape lvl mv a d ts d1 d2 crit wm rng
  rw [hshape]
  constructor
  · intro h
    exact core_zero_power lvl mv a d ts d1 d2 crit wm cr rf h
  · intro p hp hp0
    constructor
    · intro heff
      exact core_min_damage lvl mv a d ts d1 d2 crit wm cr rf hp
        (ne_of_gt hp0) heff
    · intro heff
      exact core_immune lvl mv a d ts d1 d2 crit wm cr rf hp
        (ne_of_gt hp0) heff

/-- Witness for C3 at a concrete call: `tackle` (power 40) against a neutral
single-typed defender yields damage ≥ 1. -/
theorem calculate_damage_spec_witness :
    (50 : ℤ) ≠ 0 ∧ tackle.power = Option.some 40 ∧ (0 : ℤ) < 40 ∧
    get_type_effectiveness tackle.type PType.normal Option.none ≠ 0 ∧
    1 ≤ (calculate_damage 50 tackle 50 50 [PType.normal] PType.normal
          Option.none false 1 []).1.1 := by
  refine ⟨by decide, by decide, by decide, by decide, ?_⟩
  exact ((calculate_damage_spec 50 tackle 50 50 [PType.normal] PType.normal
    Option.none false 1 [] (by decide)).2 40 (by decide) (by decide)).1 (by decide)

/-- C9 counterexample: holding the random stream fixed at `[0, 1]`, the
forced-critical call consumes the stream differently (the critical-roll draw
is short-circuited away), receives the smaller uniform damage roll, and deals
58 damage while the unforced call (whose own critical roll succeeds and whose
uniform roll is the maximal 1.0) deals 69.  So forced-critical damage is NOT
≥ unforced damage under a fixed random source. -/
theorem forced_crit_seed_cex :
    ((calculate_damage 50 bigMove 50 50 [PType.water] PType.normal
        Option.none true 1 [0, 1]).1).1 <
    ((calculate_damage 50 bigMove 50 50 [PType.water] PType.normal
        Option.none false 1 [0, 1]).1).1 := by decide

/-- C9 amended: holding the two individual rolls fixed (the same
critical-hit roll and the same uniform damage roll), a forced critical deals
damage ≥ the otherwise identical unforced call. -/
theorem forced_crit_ge_same_rolls (lvl : ℤ) (mv : Move) (a d : ℤ)
    (ts : List PType) (d1 : PType) (d2 : Option PType) (wm : ℚ)
    (cr : Bool) (rf : ℚ) (hd : d ≠ 0) :
    (calculate_damage_core lvl mv a d ts d1 d2 false wm cr rf).1 ≤
    (calculate_damage_core lvl mv a d ts d1 d2 true wm cr rf).1 :=
  core_crit_ge lvl mv a d ts d1 d2 wm cr rf

/-- Witness for C9-amended at a concrete call. -/
theorem forced_crit_ge_same_rolls_witness :
    (50 : ℤ) ≠ 0 ∧
    (calculate_damage_core 50 bigMove 50 50 [PType.water] PType.normal
        Option.none false 1 false (9/10)).1 ≤
    (calculate_damage_core 50 bigMove 50 50 [PType.water] PType.normal
        Option.none true 1 false (9/10)).1 :=
  ⟨by decide, forced_crit_ge_same_rolls 50 bigMove 50 50 [PType.water]
    PType.normal Option.none 1 false (9/10) (by decide)⟩

-- ---------------------------------------------------------------------------
-- C5 / C6: ELO deltas
-- ---------------------------------------------------------------------------

/-- C5 counterexample: for winner rating 1800 against loser rating 1000 the
float power is `10 ** ((1000 - 1800) / 400) = 10 ** (-2) = 1/100`, and both
deltas round to 0 — the deltas are not opposite in sign (winner delta is not
positive, loser delta is not negative). -/
theorem elo_opposite_sign_cex :
    (0 : ℚ) < 1/100 ∧ calculate_elo_change (1/100) = (0, 0) := by decide

/-- C5 amended: the two deltas are always exact negatives of each other with
the winner delta nonnegative; they are strictly opposite in sign whenever the
winner is not rated above the loser (`1 ≤ r`); and for equal ratings
(`r = 1`) the result is exactly `(16, -16)`.  For a winner rated far above
the loser both deltas can round to 0. -/
lemma elo_fst (r : ℚ) :
    (calculate_elo_change r).1 = pyRound ((K_FACTOR : ℚ) * (1 - 1/(1+r))) := rfl

lemma elo_snd (r : ℚ) :
    (calculate_elo_change r).2 =
      pyRound ((K_FACTOR : ℚ) * (0 - (1 - 1/(1+r)))) := rfl

theorem elo_deltas_spec (r : ℚ) (hr : 0 < r) :
    ((calculate_elo_change r).2 = -((calculate_elo_change r).1) ∧
      0 ≤ (calculate_elo_change r).1 ∧
      (1 ≤ r → 0 < (calculate_elo_change r).1 ∧ (calculate_elo_change r).2 < 0)) ∧
    calculate_elo_change 1 = (16, -16) := by
  have h1r : (0:ℚ) < 1 + r := by linarith
  have hK : ((K_FACTOR : ℤ) : ℚ) = 32 := by norm_num [K_FACTOR]
  have hneg : (calculate_elo_change r).2 = -((calculate_elo_change r).1) := by
    rw [elo_fst, elo_snd]
    have he : (K_FACTOR : ℚ) * (0 - (1 - 1/(1+r))) =
        -((K_FACTOR : ℚ) * (1 - 1/(1+r))) := by ring
    rw [he]
    exact pyRound_neg _
  have hEle : 1/(1+r) ≤ 1 := by
    rw [div_le_one h1r]
    linarith
  have hwnn : 0 ≤ (calculate_elo_change r).1 := by
    rw [elo_fst]
    have h0 : ((0:ℤ) : ℚ) ≤ (K_FACTOR : ℚ) * (1 - 1/(1+r)) := by
      rw [hK]
      push_cast
      nlinarith [hEle]
    exact intCast_le_pyRound h0
  refine ⟨⟨hneg, hwnn, ?_⟩, by decide⟩
  intro hr1
  have hhalf : 1/(1+r) ≤ 1/2 := by
    rw [div_le_div_iff h1r (by norm_num : (0:ℚ) < 2)]
    linarith
  have h16 : ((16:ℤ) : ℚ) ≤ (K_FACTOR : ℚ) * (1 - 1/(1+r)) := by
    rw [hK]
    push_cast
    nlinarith
  have hwpos : 0 < (calculate_elo_change r).1 := by
    rw [elo_fst]
    have := intCast_le_pyRound h16
    omega
  refine ⟨hwpos, ?_⟩
  rw [hneg]
  omega

/-- Witness for C5-amended at equal ratings (`r = 1`). -/
theorem elo_deltas_spec_witness :
    (0 : ℚ) < 1 ∧ calculate_elo_change 1 = (16, -16) :=
  ⟨by norm_num, (elo_deltas_spec 1 (by norm_num)).2⟩

/-- C6 counterexample: for ratings 999 vs 1000 the float powers are
`10 ** (1/400) ≈ 1.005773` and `10 ** (-1/400) ≈ 0.994260`; at rationals in
those ranges (1.006 and 0.994) the lower-rated winner's delta and the
mirrored higher-rated winner's delta are both 16 — the former does not
strictly exceed the latter. -/
theorem elo_upset_strict_cex :
    (1 : ℚ) < 503/500 ∧ (497/500 : ℚ) < 1 ∧ (0 : ℚ) < 497/500 ∧
    (calculate_elo_change (503/500)).1 = 16 ∧
    (calculate_elo_change (497/500)).1 = 16 := by decide

/-- C6 amended: the lower-rated winner's delta is at least (≥) the mirrored
higher-rated winner's delta; equality occurs for small rating gaps.
`r ≥ 1` is the power value for the underdog win, `r' ≤ 1` for the mirrored
matchup. -/
theorem elo_upset_ge (r r' : ℚ) (hr : 1 ≤ r) (hr0 : 0 < r') (hr1 : r' ≤ 1) :
    (calculate_elo_change r').1 ≤ (calculate_elo_change r).1 := by
  have h1r : (0:ℚ) < 1 + r := by linarith
  have h1r' : (0:ℚ) < 1 + r' := by linarith
  have hup : ((16:ℤ) : ℚ) ≤ (K_FACTOR : ℚ) * (1 - 1/(1+r)) := by
    have hK : ((K_FACTOR : ℤ) : ℚ) = 32 := by norm_num [K_FACTOR]
    have hhalf : 1/(1+r) ≤ 1/2 := by
      rw [div_le_div_iff h1r (by norm_num : (0:ℚ) < 2)]
      linarith
    rw [hK]
    push_cast
    nlinarith
  have hdown : (K_FACTOR : ℚ) * (1 - 1/(1+r')) ≤ ((16:ℤ) : ℚ) := by
    have hK : ((K_FACTOR : ℤ) : ℚ) = 32 := by norm_num [K_FACTOR]
    have hhalf : 1/2 ≤ 1/(1+r') := by
      rw [div_le_div_iff (by norm_num : (0:ℚ) < 2) h1r']
      linarith
    rw [hK]
    push_cast
    nlinarith
  have h1 := intCast_le_pyRound hup
  have h2 := pyRound_le_intCast hdown
  rw [elo_fst, elo_fst]
  omega

/-- Witness for C6-amended at ratings one apart (the C6 counterexample's
power values). -/
theorem elo_upset_ge_witness :
    (1 : ℚ) ≤ 503/500 ∧ (0 : ℚ) < 497/500 ∧ (497/500 : ℚ) ≤ 1 ∧
    (calculate_elo_change (497/500)).1 ≤ (calculate_elo_change (503/500)).1 :=
  ⟨by norm_num, by norm_num, by norm_num,
    elo_upset_ge (503/500) (497/500) (by norm_num) (by norm_num) (by norm_num)⟩

-- ---------------------------------------------------------------------------
-- C7: move lookup
-- ---------------------------------------------------------------------------

/-- C7 counterexample: move lookup CAN fail and does not always default to
the first move.  With an empty move list the subscript raises
(`Option.none`), and a negative in-range index selects from the END of the
list (Python semantics): index -1 on a two-move list returns the second
move, whose priority 1 differs from the first move's priority 0. -/
theorem move_lookup_cex :
    chooseMove (Option.some 0) ([] : List Move) = Option.none ∧
    chooseMove (Option.some (-1)) [tackle, quickAttack] = Option.some quickAttack ∧
    (Option.map Move.priority (chooseMove (Option.some (-1)) [tackle, quickAttack]) ≠
      Option.map Move.priority ([tackle, quickAttack].head?)) := by
  refine ⟨rfl, rfl, ?_⟩
  decide

/-- C7 amended: for a combatant with at least one move and a nonnegative (or
absent) submitted move index, the lookup never fails; an absent index and an
out-of-range index (≥ the list length) both resolve to the first move. -/
lemma pyIndex_nonneg {α : Type} (l : List α) (i : ℤ) (h0 : 0 ≤ i) :
    pyIndex l i = l.get? i.toNat := by
  unfold pyIndex
  rw [if_neg (not_lt.mpr h0)]
  dsimp only
  rw [if_neg (not_lt.mpr h0)]

lemma head_eq_get_zero {α : Type} (l : List α) : l.get? 0 = l.head? := by
  cases l
  · rfl
  · rfl

theorem move_lookup_safe (mi : Option ℤ) (moves : List Move)
    (hne : moves ≠ []) (hnn : ∀ i, mi = Option.some i → 0 ≤ i) :
    (chooseMove mi moves).isSome = true ∧
    (mi = Option.none → chooseMove mi moves = moves.head?) ∧
    (∀ i, mi = Option.some i → (moves.length : ℤ) ≤ i →
      chooseMove mi moves = moves.head?) := by
  have hlen : 0 < moves.length := List.length_pos.mpr hne
  have hzero : chooseMoveIdx mi moves = 0 → chooseMove mi moves = moves.head? := by
    intro h0
    unfold chooseMove
    rw [h0, pyIndex_nonneg moves 0 le_rfl]
    exact head_eq_get_zero moves
  have hsome : (moves.head?).isSome = true := by
    cases moves
    · exact absurd rfl hne
    · rfl
  rcases hmi : mi with _ | i
  · subst hmi
    have h0 : chooseMoveIdx Option.none moves = 0 := by
      unfold chooseMoveIdx
      dsimp only [Option.getD]
      exact ite_self 0
    have hh := hzero h0
    refine ⟨by rw [hh]; exact hsome, fun _ => hh, fun i hcon => ?_⟩
    exact absurd hcon (by simp)
  · subst hmi
    have hi : 0 ≤ i := hnn i rfl
    by_cases hbig : (moves.length : ℤ) ≤ i
    · have h0 : chooseMoveIdx (Option.some i) moves = 0 := by
        unfold chooseMoveIdx
        dsimp only [Option.getD]
        rw [if_pos hbig]
      have hh := hzero h0
      refine ⟨by rw [hh]; exact hsome, fun hcon => ?_, fun j hj _ => hh⟩
      exact absurd hcon (by simp)
    · have h0 : chooseMoveIdx (Option.some i) moves = i := by
        unfold chooseMoveIdx
        dsimp only [Option.getD]
        rw [if_neg hbig]
      refine ⟨?_, fun hcon => absurd hcon (by simp), fun j hj hbig2 => ?_⟩
      · unfold chooseMove
        rw [h0, pyIndex_nonneg moves i hi]
        have hlt : i.toNat < moves.length := by omega
        rw [List.get?_eq_get hlt]
        rfl
      · rw [Option.some_inj] at hj
        subst hj
        omega

/-- Witness for C7-amended: an out-of-range index 5 on a two-move list
resolves to the first move. -/
theorem move_lookup_safe_witness :
    ([tackle, quickAttack] : List Move) ≠ [] ∧
    (chooseMove (Option.some 5) [tackle, quickAttack]).isSome = true ∧
    chooseMove (Option.some 5) [tackle, quickAttack] =
      [tackle, quickAttack].head? := by
  have hne : ([tackle, quickAttack] : List Move) ≠ [] := by simp
  have hnn : ∀ i : ℤ, (Option.some (5:ℤ)) = Option.some i → 0 ≤ i := by
    intro i hi
    rw [Option.some_inj] at hi
    omega
  have h := move_lookup_safe (Option.some 5) [tackle, quickAttack] hne hnn
  exact ⟨hne, h.1, h.2.2 5 rfl (by norm_num)⟩

-- ---------------------------------------------------------------------------
-- C8: badly-poisoned escalation
-- ---------------------------------------------------------------------------

lemma active_pokemon_spec (t : BattleTeam) (m : BattlePokemon)
    (h : t.active_pokemon = Option.some m) :
    0 ≤ t.active_index ∧ t.active_index < (t.roster.length : ℤ) ∧
      t.roster.get? t.active_index.toNat = Option.some m := by
  unfold BattleTeam.active_pokemon at h
  split at h
  · rename_i hcond
    exact ⟨hcond.1, hcond.2, h⟩
  · cases h

lemma setActive_active (t : BattleTeam) (m m' : BattlePokemon)
    (h : t.active_pokemon = Option.some m) :
    (t.setActive m').active_pokemon = Option.some m' := by
  obtain ⟨h1, h2, _⟩ := active_pokemon_spec t m h
  unfold BattleTeam.setActive BattleTeam.active_pokemon
  dsimp only
  rw [List.length_set]
  rw [if_pos ⟨h1, h2⟩]
  have hlt : t.active_index.toNat < t.roster.length := by omega
  exact List.get?_set_eq_of_lt m' hlt

lemma badly_dmg_strict (M k : ℤ) (hM : 16 ≤ M) (hk : 1 ≤ k) :
    max 1 (M * k / 16) < max 1 (M * (k+1) / 16) := by
  have h16 : (16:ℤ) ≤ M * k := by nlinarith
  have h1 : (1:ℤ) ≤ M * k / 16 := by
    calc (1:ℤ) = 16 / 16 := by norm_num
    _ ≤ M * k / 16 := Int.ediv_le_ediv (by norm_num) h16
  have hstep : M * k + 16 ≤ M * (k+1) := by nlinarith
  have hplus : (M * k + 16) / 16 = M * k / 16 + 1 := by
    have h116 : (16:ℤ) = 1 * 16 := by norm_num
    calc (M * k + 16) / 16 = (M * k + 1 * 16) / 16 := by rw [← h116]
    _ = M * k / 16 + 1 := Int.add_mul_ediv_right _ _ (by norm_num)
  have h2 : M * k / 16 + 1 ≤ M * (k+1) / 16 := by
    calc M * k / 16 + 1 = (M * k + 16) / 16 := hplus.symm
    _ ≤ M * (k+1) / 16 := Int.ediv_le_ediv (by norm_num) hstep
  rw [max_eq_right h1, max_eq_right (by omega)]
  omega

/-- C8 amended: an application of end-of-turn status damage to a
badly-poisoned, non-fainted active combatant with escalation counter `k`
increments the counter and deals exactly `max(1, max_hp·(k+1) // 16)` damage
(so the Nth consecutive application deals `max(1, max_hp·N // 16)`); this
amount strictly increases between consecutive applications whenever
`max_hp ≥ 16` — for smaller health pools the minimum-1 clamp can make
consecutive amounts equal. -/
theorem badly_poison_escalation (t : BattleTeam) (mon : BattlePokemon) (k : ℤ)
    (hact : t.active_pokemon = Option.some mon)
    (hal : mon.is_fainted = false)
    (hst : mon.status = StatusEffect.badly_poisoned)
    (hk : mon.status_turns = k) :
    ((apply_status_damage t).2.map TurnEvent.damage =
      [max 1 (mon.max_hp * (k+1) / 16)]) ∧
    (∃ mon', (apply_status_damage t).1.active_pokemon = Option.some mon' ∧
      mon'.status_turns = k + 1 ∧ mon'.status = StatusEffect.badly_poisoned) ∧
    (16 ≤ mon.max_hp → 1 ≤ k →
      max 1 (mon.max_hp * k / 16) < max 1 (mon.max_hp * (k+1) / 16)) := by
  have hres : apply_status_damage t =
      (t.setActive { ({ mon with status_turns := mon.status_turns + 1
          }.take_damage (max 1 (mon.max_hp * (mon.status_turns + 1) / 16))).2 with
          is_protected := false },
        [{ event_type := "status", player_id := t.player_id,
           pokemon_name := mon.display_name,
           damage := max 1 (mon.max_hp * (mon.status_turns + 1) / 16),
           message := mon.display_name ++ " was badly hurt by poison! (-" ++
             toString (max 1 (mon.max_hp * (mon.status_turns + 1) / 16)) ++ " HP)" }]) := by
    unfold apply_status_damage
    rw [hact]
    dsimp only
    rw [hal]
    rw [if_neg (by simp)]
    rw [if_neg (by rw [hst]; decide), if_neg (by rw [hst]; decide), if_pos hst]
  rw [hres]
  refine ⟨by simp [hk], ?_, fun hM hk1 => badly_dmg_strict mon.max_hp k hM hk1⟩
  refine ⟨_, setActive_active t mon _ hact, ?_, ?_⟩
  · unfold BattlePokemon.take_damage
    dsimp only
    split <;> simp [hk]
  · unfold BattlePokemon.take_damage
    dsimp only
    split <;> simp [hst]

/-- C8 counterexample: with max health 15 the first two consecutive
badly-poisoned applications both deal 1 damage (the combatant survives and
keeps the status), so the damage does NOT strictly increase for every max
health value. -/
theorem badly_poison_strict_cex :
    exMonToxic.status = StatusEffect.badly_poisoned ∧
    (apply_status_damage exTeamToxic).2.map TurnEvent.damage = [1] ∧
    Option.map BattlePokemon.is_fainted
      ((apply_status_damage exTeamToxic).1.active_pokemon) = Option.some false ∧
    Option.map BattlePokemon.status
      ((apply_status_damage exTeamToxic).1.active_pokemon) =
      Option.some StatusEffect.badly_poisoned ∧
    (apply_status_damage (apply_status_damage exTeamToxic).1).2.map
      TurnEvent.damage = [1] := by decide

/-- A badly-poisoned combatant with a large health pool, counter already
at 1. -/
def exMonToxicBig : BattlePokemon :=
  { pokemon_id := 4, pokedex_id := 4, name := "delta",
    type1 := PType.poison, max_hp := 160, current_hp := 160,
    atk := 50, defense := 50, spa := 50, spd := 50, spe := 50,
    moves := [tackle], status := StatusEffect.badly_poisoned,
    status_turns := 1 }

/-- Team holding `exMonToxicBig`. -/
def exTeamToxicBig : BattleTeam :=
  { player_id := "p4", trainer_name := "Dot", roster := [exMonToxicBig] }

/-- Witness for C8-amended on a 160-max-health combatant. -/
theorem badly_poison_escalation_witness :
    exTeamToxicBig.active_pokemon = Option.some exMonToxicBig ∧
    ((apply_status_damage exTeamToxicBig).2.map TurnEvent.damage =
      [max 1 (exMonToxicBig.max_hp * (1+1) / 16)]) ∧
    (16 ≤ exMonToxicBig.max_hp ∧
      max 1 (exMonToxicBig.max_hp * 1 / 16) <
        max 1 (exMonToxicBig.max_hp * (1+1) / 16)) := by
  have h := badly_poison_escalation exTeamToxicBig exMonToxicBig 1 rfl rfl rfl rfl
  exact ⟨rfl, h.1, by decide, h.2.2 (by decide) (by decide)⟩

-- ---------------------------------------------------------------------------
-- C2: resolution before both actions are submitted is a no-op
-- ---------------------------------------------------------------------------

/-- C2: whenever a team is absent or an action is missing, `resolve_turn`
returns an empty event list and the state is returned entirely unchanged. -/
theorem resolve_turn_noop (now : ℕ) (st : BattleState) (rng : Rng)
    (h : st.both_actions_submitted = false) :
    resolve_turn now st rng = Option.some (st, []) := by
  unfold resolve_turn
  rw [if_pos h]

/-- Witness for C2 on a battle with no opponent team. -/
theorem resolve_turn_noop_witness :
    exStNoTeam.both_actions_submitted = false ∧
    resolve_turn 99 exStNoTeam [] = Option.some (exStNoTeam, []) :=
  ⟨by decide, resolve_turn_noop 99 exStNoTeam [] (by decide)⟩

-- ---------------------------------------------------------------------------
-- C1: effects of a successful resolution
-- ---------------------------------------------------------------------------

/-- C1 counterexample: on a forfeit action the turn counter is still
incremented and the actions cleared, but `resolve_turn` returns before the
turn-log append and the `updated_at` refresh — so a state with both actions
submitted does NOT always get one new turn-log entry and a fresh
`updated_at`. -/
theorem resolve_turn_effects_cex :
    exStForfeit.both_actions_submitted = true ∧
    (∃ p : BattleState × List TurnEvent,
      resolve_turn 99 exStForfeit [] = Option.some p ∧
      p.1.turn_log = exStForfeit.turn_log ∧
      p.1.turn_log.length ≠ exStForfeit.turn_log.length + 1 ∧
      p.1.updated_at = exStForfeit.updated_at ∧
      exStForfeit.updated_at ≠ 99) := by
  refine ⟨by decide, ⟨_, rfl, by decide, by decide, by decide, by decide⟩⟩

/-- C1 amended: whenever both teams are present, both actions are submitted,
neither action is a forfeit, and the turn resolves without raising, a single
call to `resolve_turn` increments `turn_number` by exactly 1, appends exactly
one events-list entry to `turn_log`, sets both sides' submitted actions to
`None` and writes the current clock into `updated_at`.  (On a forfeit the
counter is still incremented and the actions cleared, but nothing is
appended to the log and `updated_at` is untouched.) -/
theorem resolve_turn_success_effects (now : ℕ) (st : BattleState) (rng : Rng)
    (t1 t2 : BattleTeam) (a1 a2 : BattleAction) (st' : BattleState)
    (evs : List TurnEvent)
    (h1 : st.team1 = Option.some t1) (h2 : st.team2 = Option.some t2)
    (h3 : t1.action = Option.some a1) (h4 : t2.action = Option.some a2)
    (h5 : a1.action_type ≠ BattleActionType.forfeit)
    (h6 : a2.action_type ≠ BattleActionType.forfeit)
    (h7 : resolve_turn now st rng = Option.some (st', evs)) :
    st'.turn_number = st.turn_number + 1 ∧
    st'.turn_log = st.turn_log ++ [evs] ∧
    (∀ u, st'.team1 = Option.some u → u.action = Option.none) ∧
    (∀ u, st'.team2 = Option.some u → u.action = Option.none) ∧
    st'.updated_at = now := by
  have hsub : st.both_actions_submitted = true := by
    unfold BattleState.both_actions_submitted
    rw [h1, h2]
    dsimp only
    rw [h3, h4]
    rfl
  unfold resolve_turn at h7
  rw [hsub] at h7
  rw [if_neg (by decide : ¬ (true = false))] at h7
  rw [h1, h2] at h7
  dsimp only at h7
  rw [h3, h4] at h7
  dsimp only at h7
  rw [if_neg h5, if_neg h6] at h7
  rcases ho : order_attackers (process_switch t1 a1).1 (process_switch t2 a2).1
      a1 a2 rng with _ | ⟨order, rng1⟩
  · rw [ho] at h7
    dsimp only at h7
    cases h7
  · rw [ho] at h7
    dsimp only at h7
    rcases ha : attack_phase a1 a2 order (process_switch t1 a1).1
        (process_switch t2 a2).1 [] rng1 with _ | ⟨t1b, t2b, atkEvs, rngx⟩
    · rw [ha] at h7
      dsimp only at h7
      cases h7
    · rw [ha] at h7
      dsimp only at h7
      rw [Option.some_inj, Prod.mk.injEq] at h7
      obtain ⟨hA, hB⟩ := h7
      subst hB
      refine ⟨?_, ?_, ?_, ?_, ?_⟩ <;> rw [← hA] <;> simp

/-- Side 1 with a submitted switch action. -/
def exTeamSw1 : BattleTeam :=
  { player_id := "p1", trainer_name := "Ann", roster := [exMonA],
    action := Option.some { action_type := BattleActionType.switch,
                            switch_to := Option.some 0, player_id := "p1" } }

/-- Side 2 with a submitted switch action. -/
def exTeamSw2 : BattleTeam :=
  { player_id := "p2", trainer_name := "Bob", roster := [exMonB],
    action := Option.some { action_type := BattleActionType.switch,
                            switch_to := Option.some 0, player_id := "p2" } }

/-- An active battle in which both sides submitted switches. -/
def exStSwitch : BattleState :=
  { challenger_id := "p1", opponent_id := "p2",
    status := BattleStatus.active, updated_at := 5,
    team1 := Option.some exTeamSw1, team2 := Option.some exTeamSw2 }

/-- Witness for C1-amended on a concrete double-switch turn. -/
theorem resolve_turn_success_effects_witness :
    ∃ p : BattleState × List TurnEvent,
      resolve_turn 99 exStSwitch [] = Option.some p ∧
      p.1.turn_number = exStSwitch.turn_number + 1 ∧
      p.1.turn_log = exStSwitch.turn_log ++ [p.2] ∧
      (∀ u, p.1.team1 = Option.some u → u.action = Option.none) ∧
      (∀ u, p.1.team2 = Option.some u → u.action = Option.none) ∧
      p.1.updated_at = 99 := by
  obtain ⟨p, hp⟩ : ∃ p, resolve_turn 99 exStSwitch [] = Option.some p := ⟨_, rfl⟩
  have h := resolve_turn_success_effects 99 exStSwitch [] exTeamSw1 exTeamSw2
    _ _ p.1 p.2 rfl rfl rfl rfl (by decide) (by decide) hp
  exact ⟨p, hp, h.1, h.2.1, h.2.2.1, h.2.2.2.1, h.2.2.2.2⟩

-- ---------------------------------------------------------------------------
-- C10: health invariants through the engine
-- ---------------------------------------------------------------------------

/-- The per-pokemon health invariant of the spec: health lies in
`[0, max_hp]` and a health of 0 implies the fainted flag. -/
def MonInv (m : BattlePokemon) : Prop :=
  0 ≤ m.current_hp ∧ m.current_hp ≤ m.max_hp ∧
    (m.current_hp = 0 → m.is_fainted = true)

instance (m : BattlePokemon) : Decidable (MonInv m) :=
  inferInstanceAs (Decidable (0 ≤ m.current_hp ∧ m.current_hp ≤ m.max_hp ∧
    (m.current_hp = 0 → m.is_fainted = true)))

/-- Every roster member of a team satisfies the health invariant. -/
def TeamInv (t : BattleTeam) : Prop := ∀ m ∈ t.roster, MonInv m

instance (t : BattleTeam) : Decidable (TeamInv t) :=
  inferInstanceAs (Decidable (∀ m ∈ t.roster, MonInv m))

/-- `TeamInv` lifted over an optional team. -/
def OptTeamInv : Option BattleTeam → Prop
  | Option.some t => TeamInv t
  | Option.none => True

instance : (o : Option BattleTeam) → Decidable (OptTeamInv o)
  | Option.some t => inferInstanceAs (Decidable (TeamInv t))
  | Option.none => Decidable.isTrue trivial

/-- Both (optional) teams of a battle state satisfy the invariant. -/
def StateInv (st : BattleState) : Prop :=
  OptTeamInv st.team1 ∧ OptTeamInv st.team2

instance (st : BattleState) : Decidable (StateInv st) :=
  inferInstanceAs (Decidable (OptTeamInv st.team1 ∧ OptTeamInv st.team2))

/-- One engine step on a team: the roster keeps its length, and slot by slot
the health invariant is preserved and the fainted flag is never cleared. -/
def TeamStep (t t' : BattleTeam) : Prop :=
  t'.roster.length = t.roster.length ∧
  ∀ (k : ℕ) (m m' : BattlePokemon),
    t.roster.get? k = Option.some m → t'.roster.get? k = Option.some m' →
    (MonInv m → MonInv m') ∧ (m.is_fainted = true → m'.is_fainted = true)

/-- Slot-by-slot monotonicity of the fainted flag between two team values. -/
def TeamFaintMono (t t' : BattleTeam) : Prop :=
  t'.roster.length = t.roster.length ∧
  ∀ (k : ℕ) (m m' : BattlePokemon),
    t.roster.get? k = Option.some m → t'.roster.get? k = Option.some m' →
    m.is_fainted = true → m'.is_fainted = true

lemma teamStep_faintMono {t t' : BattleTeam} (h : TeamStep t t') :
    TeamFaintMono t t' :=
  ⟨h.1, fun k m m' hm hm' => (h.2 k m m' hm hm').2⟩

lemma teamStep_refl (t : BattleTeam) : TeamStep t t := by
  refine ⟨rfl, fun k m m' hm hm' => ?_⟩
  rw [hm] at hm'
  cases hm'
  exact ⟨id, id⟩

lemma teamStep_roster_eq {t t' : BattleTeam} (h : t'.roster = t.roster) :
    TeamStep t t' := by
  refine ⟨by rw [h], fun k m m' hm hm' => ?_⟩
  rw [h, hm] at hm'
  cases hm'
  exact ⟨id, id⟩

lemma teamStep_trans {t1 t2 t3 : BattleTeam} (h12 : TeamStep t1 t2)
    (h23 : TeamStep t2 t3) : TeamStep t1 t3 := by
  obtain ⟨hl12, hp12⟩ := h12
  obtain ⟨hl23, hp23⟩ := h23
  refine ⟨hl23.trans hl12, fun k m m' hm hm' => ?_⟩
  have hk1 : k < t1.roster.length := by
    by_contra hc
    rw [List.get?_len_le (Nat.le_of_not_lt hc)] at hm
    cases hm
  obtain ⟨mm, hmm⟩ : ∃ mm, t2.roster.get? k = Option.some mm := by
    rcases hg : t2.roster.get? k with _ | mm
    · rw [List.get?_eq_none] at hg
      omega
    · exact ⟨mm, rfl⟩
  obtain ⟨i1, f1⟩ := hp12 k m mm hm hmm
  obtain ⟨i2, f2⟩ := hp23 k mm m' hmm hm'
  exact ⟨fun h => i2 (i1 h), fun h => f2 (f1 h)⟩

lemma teamStep_teamInv {t t' : BattleTeam} (h : TeamStep t t')
    (hinv : TeamInv t) : TeamInv t' := by
  intro m' hm'
  obtain ⟨k, hk⟩ := List.mem_iff_get?.mp hm'
  have hkl : k < t'.roster.length := by
    by_contra hc
    rw [List.get?_len_le (Nat.le_of_not_lt hc)] at hk
    cases hk
  obtain ⟨m, hm⟩ : ∃ m, t.roster.get? k = Option.some m := by
    rcases hg : t.roster.get? k with _ | m
    · rw [List.get?_eq_none] at hg
      rw [h.1] at hkl
      omega
    · exact ⟨m, rfl⟩
  exact (h.2 k m m' hm hk).1 (hinv m (List.get?_mem hm))

lemma teamInv_active {t : BattleTeam} {m : BattlePokemon} (h : TeamInv t)
    (hm : t.active_pokemon = Option.some m) : MonInv m :=
  h m (List.get?_mem (active_pokemon_spec t m hm).2.2)

lemma teamStep_setActive (t : BattleTeam) {m : BattlePokemon}
    (m' : BattlePokemon) (hact : t.active_pokemon = Option.some m)
    (hInv : MonInv m → MonInv m')
    (hF : m.is_fainted = true → m'.is_fainted = true) :
    TeamStep t (t.setActive m') := by
  obtain ⟨h0, hlt, hget⟩ := active_pokemon_spec t m hact
  unfold BattleTeam.setActive
  refine ⟨List.length_set .., fun k a a' ha ha' => ?_⟩
  by_cases hk : t.active_index.toNat = k
  · subst hk
    have hlt' : t.active_index.toNat < t.roster.length := by omega
    rw [List.get?_set_eq_of_lt m' hlt'] at ha'
    cases ha'
    rw [hget] at ha
    cases ha
    exact ⟨hInv, hF⟩
  · rw [List.get?_set_ne _ _ hk] at ha'
    rw [ha] at ha'
    cases ha'
    exact ⟨id, id⟩

lemma monInv_take_damage (m : BattlePokemon) (a : ℤ) (ha : 0 ≤ a)
    (h : MonInv m) : MonInv (m.take_damage a).2 := by
  obtain ⟨h0, hmax, _⟩ := h
  unfold BattlePokemon.take_damage MonInv
  dsimp only
  split
  · exact ⟨le_refl 0, le_trans h0 hmax, fun _ => rfl⟩
  · rename_i hgt
    dsimp only
    exact ⟨by omega, by omega, fun hc => absurd hc (by omega)⟩

lemma fainted_take_damage (m : BattlePokemon) (a : ℤ)
    (h : m.is_fainted = true) : (m.take_damage a).2.is_fainted = true := by
  unfold BattlePokemon.take_damage
  dsimp only
  split
  · rfl
  · exact h

lemma take_damage_zero_fainted (m : BattlePokemon) (a : ℤ) :
    (m.take_damage a).2.current_hp = 0 → (m.take_damage a).2.is_fainted = true := by
  unfold BattlePokemon.take_damage
  dsimp only
  split
  · exact fun _ => rfl
  · rename_i hgt
    dsimp only
    exact fun hc => absurd hc (by omega)

lemma take_damage_fst_nonneg (m : BattlePokemon) (a : ℤ) (ha : 0 ≤ a)
    (h0 : 0 ≤ m.current_hp) : 0 ≤ (m.take_damage a).1 := by
  unfold BattlePokemon.take_damage
  dsimp only
  split <;> exact le_min ha h0

lemma monInv_heal (m : BattlePokemon) (a : ℤ) (ha : 0 ≤ a) (h : MonInv m) :
    MonInv (m.heal a).2 := by
  obtain ⟨h0, hmax, hf⟩ := h
  unfold BattlePokemon.heal MonInv
  dsimp only
  split
  · exact ⟨h0, hmax, hf⟩
  · dsimp only
    exact ⟨by omega, by omega, fun hc => hf (by omega)⟩

lemma fainted_heal (m : BattlePokemon) (a : ℤ) (h : m.is_fainted = true) :
    (m.heal a).2.is_fainted = true := by
  unfold BattlePokemon.heal
  rw [if_pos h]
  exact h

lemma heal_fainted (m : BattlePokemon) (a : ℤ) (h : m.is_fainted = true) :
    m.heal a = (0, m) := by
  unfold BattlePokemon.heal
  rw [if_pos h]

lemma calculate_damage_fst_nonneg (lvl : ℤ) (mv : Move) (a d : ℤ)
    (ts : List PType) (d1 : PType) (d2 : Option PType) (crit : Bool) (wm : ℚ)
    (rng : Rng) :
    0 ≤ ((calculate_damage lvl mv a d ts d1 d2 crit wm rng).1).1 := by
  obtain ⟨cr, rf, rng', hshape⟩ :=
    calculate_damage_shape lvl mv a d ts d1 d2 crit wm rng
  rw [hshape]
  exact core_damage_nonneg lvl mv a d ts d1 d2 crit wm cr rf

lemma drain_nonneg (x dp : ℤ) (hx : 0 ≤ x) :
    0 ≤ pyInt ((x : ℚ) * ((|dp| : ℤ) : ℚ) / 100) := by
  apply pyInt_nonneg
  apply div_nonneg
  · exact mul_nonneg (by exact_mod_cast hx) (by exact_mod_cast abs_nonneg dp)
  · norm_num

lemma heal_amount_nonneg (mhp hpct : ℤ) (hm : 0 ≤ mhp) (hp0 : 0 ≤ hpct) :
    0 ≤ pyInt ((mhp : ℚ) * (hpct : ℚ) / 100) := by
  apply pyInt_nonneg
  apply div_nonneg
  · exact mul_nonneg (by exact_mod_cast hm) (by exact_mod_cast hp0)
  · norm_num

lemma process_switch_step (t : BattleTeam) (a : BattleAction) :
    TeamStep t (process_switch t a).1 := by
  unfold process_switch
  split
  · exact teamStep_roster_eq rfl
  · exact teamStep_refl t

lemma faint_check_step (t : BattleTeam) : TeamStep t (faint_check t).1 := by
  unfold faint_check
  rcases hact : t.active_pokemon with _ | mon
  · exact teamStep_refl t
  · dsimp only
    split
    · rcases hn : t.next_alive_index with _ | idx
      · exact teamStep_refl t
      · dsimp only
        exact teamStep_roster_eq rfl
    · exact teamStep_refl t

lemma apply_status_damage_step (t : BattleTeam) :
    TeamStep t (apply_status_damage t).1 := by
  unfold apply_status_damage
  rcases hact : t.active_pokemon with _ | mon
  · exact teamStep_refl t
  · dsimp only
    split
    · exact teamStep_refl t
    · refine teamStep_setActive t _ hact (fun hm => ?_) (fun hf => ?_)
      · split
        · exact monInv_take_damage mon _ (le_trans zero_le_one (le_max_left _ _)) hm
        · split
          · exact monInv_take_damage mon _ (le_trans zero_le_one (le_max_left _ _)) hm
          · split
            · exact monInv_take_damage { mon with status_turns := mon.status_turns + 1 }
                _ (le_trans zero_le_one (le_max_left _ _)) hm
            · exact hm
      · split
        · exact fainted_take_damage mon _ hf
        · split
          · exact fainted_take_damage mon _ hf
          · split
            · exact fainted_take_damage { mon with status_turns := mon.status_turns + 1 } _ hf
            · exact hf

lemma handle_status_move_step (atkT : BattleTeam) (mv : Move)
    (defT : BattleTeam) (rng : Rng) :
    TeamStep atkT (handle_status_move atkT mv defT rng).1 ∧
    TeamStep defT (handle_status_move atkT mv defT rng).2.1 := by
  unfold handle_status_move
  rcases hatk : atkT.active_pokemon with _ | atk_mon
  · exact ⟨teamStep_refl atkT, teamStep_refl defT⟩
  · rcases hdm : defT.active_pokemon with _ | def_mon
    · exact ⟨teamStep_refl atkT, teamStep_refl defT⟩
    · dsimp only
      split
      · exact ⟨teamStep_setActive atkT _ hatk (fun hm => hm) (fun hf => hf),
          teamStep_refl defT⟩
      · split
        · split
          · rename_i hrest hlt
            refine ⟨teamStep_setActive atkT _ hatk (fun hm => ?_) (fun hf => hf),
              teamStep_refl defT⟩
            obtain ⟨h0, hmax, _⟩ := hm
            refine ⟨?_, ?_, fun hz => ?_⟩
            · show (0:ℤ) ≤ atk_mon.max_hp
              omega
            · show atk_mon.max_hp ≤ atk_mon.max_hp
              exact le_rfl
            · exact absurd (show atk_mon.max_hp = 0 from hz) (by omega)
          · exact ⟨teamStep_refl atkT, teamStep_refl defT⟩
        · split
          · rename_i hrest hheal
            exact ⟨teamStep_setActive atkT _ hatk
              (fun hm => monInv_heal atk_mon _
                (heal_amount_nonneg atk_mon.max_hp mv.healing_percent
                  (le_trans hm.1 hm.2.1) (le_of_lt hheal)) hm)
              (fun hf => fainted_heal atk_mon _ hf), teamStep_refl defT⟩
          · split
            · split
              · rcases hacc : mv.accuracy with _ | acc
                · dsimp only
                  rw [if_neg Bool.false_ne_true]
                  split
                  · exact ⟨teamStep_refl atkT,
                      teamStep_setActive defT _ hdm (fun hm => hm) (fun hf => hf)⟩
                  · exact ⟨teamStep_refl atkT,
                      teamStep_setActive defT _ hdm (fun hm => hm) (fun hf => hf)⟩
                · dsimp only
                  split
                  · exact ⟨teamStep_refl atkT, teamStep_refl defT⟩
                  · split
                    · exact ⟨teamStep_refl atkT,
                        teamStep_setActive defT _ hdm (fun hm => hm) (fun hf => hf)⟩
                    · exact ⟨teamStep_refl atkT,
                        teamStep_setActive defT _ hdm (fun hm => hm) (fun hf => hf)⟩
              · exact ⟨teamStep_refl atkT, teamStep_refl defT⟩
            · exact ⟨teamStep_refl atkT, teamStep_refl defT⟩

lemma execute_attack_hit_step (atkT : BattleTeam) (atk_mon : BattlePokemon)
    (mv : Move) (defT : BattleTeam) (def_mon : BattlePokemon)
    (damage : ℤ) (eff : ℚ) (wc : Bool) (events : List TurnEvent) (rng1 : Rng)
    (hatk : atkT.active_pokemon = Option.some atk_mon)
    (hdm : defT.active_pokemon = Option.some def_mon)
    (hdmg : 0 ≤ damage) (hdef0 : 0 ≤ def_mon.current_hp) :
    TeamStep atkT (execute_attack_hit atkT atk_mon mv defT def_mon damage eff
      wc events rng1).1 ∧
    TeamStep defT (execute_attack_hit atkT atk_mon mv defT def_mon damage eff
      wc events rng1).2.1 := by
  have hda : 0 ≤ pyInt (((def_mon.take_damage damage).1 : ℚ) *
      ((|mv.drain_percent| : ℤ) : ℚ) / 100) :=
    drain_nonneg _ _ (take_damage_fst_nonneg def_mon damage hdmg hdef0)
  have hAheal : TeamStep atkT (atkT.setActive
      (atk_mon.heal (pyInt (((def_mon.take_damage damage).1 : ℚ) *
        ((|mv.drain_percent| : ℤ) : ℚ) / 100))).2) :=
    teamStep_setActive atkT _ hatk (fun hm => monInv_heal atk_mon _ hda hm)
      (fun hf => fainted_heal atk_mon _ hf)
  have hArecoil : TeamStep atkT (atkT.setActive
      (atk_mon.take_damage (pyInt (((def_mon.take_damage damage).1 : ℚ) *
        ((|mv.drain_percent| : ℤ) : ℚ) / 100))).2) :=
    teamStep_setActive atkT _ hatk
      (fun hm => monInv_take_damage atk_mon _ hda hm)
      (fun hf => fainted_take_damage atk_mon _ hf)
  have hD1 : TeamStep defT (defT.setActive (def_mon.take_damage damage).2) :=
    teamStep_setActive defT _ hdm
      (fun hm => monInv_take_damage def_mon damage hdmg hm)
      (fun hf => fainted_take_damage def_mon damage hf)
  unfold execute_attack_hit
  dsimp only
  constructor
  · repeat' split
    all_goals first
      | exact hAheal
      | exact hArecoil
      | exact teamStep_refl atkT
  · repeat' split
    all_goals first
      | exact hD1
      | exact teamStep_trans hD1 (teamStep_setActive _ _
          (setActive_active defT def_mon _ hdm) (fun hm => hm) (fun hf => hf))
      | exact teamStep_refl defT

lemma execute_attack_damage_step (atkT : BattleTeam) (mv : Move)
    (defT : BattleTeam) (evs : List TurnEvent) (rng : Rng)
    (hdef : TeamInv defT) (r : BattleTeam × BattleTeam × List TurnEvent × Rng)
    (h : execute_attack_damage atkT mv defT evs rng = Option.some r) :
    TeamStep atkT r.1 ∧ TeamStep defT r.2.1 := by
  unfold execute_attack_damage at h
  rcases hatk : atkT.active_pokemon with _ | atk_mon <;>
    rcases hdm : defT.active_pokemon with _ | def_mon <;>
    rw [hatk, hdm] at h <;> dsimp only at h
  · rw [Option.some_inj] at h
    subst h
    exact ⟨teamStep_refl atkT, teamStep_refl defT⟩
  · rw [Option.some_inj] at h
    subst h
    exact ⟨teamStep_refl atkT, teamStep_refl defT⟩
  · rw [Option.some_inj] at h
    subst h
    exact ⟨teamStep_refl atkT, teamStep_refl defT⟩
  · have hmonD : MonInv def_mon := teamInv_active hdef hdm
    repeat' split at h
    all_goals rw [Option.some_inj] at h
    all_goals subst h
    all_goals first
      | exact ⟨teamStep_refl atkT, teamStep_refl defT⟩
      | exact execute_attack_hit_step atkT atk_mon mv defT def_mon _ _ _ evs _
          hatk hdm
          (calculate_damage_fst_nonneg atk_mon.level mv _ _ atk_mon.types
            def_mon.type1 def_mon.type2 false 1 rng)
          hmonD.1

lemma execute_attack_move_step (atkT : BattleTeam) (a : BattleAction)
    (defT : BattleTeam) (evs : List TurnEvent) (rng : Rng)
    (hdef : TeamInv defT) (r : BattleTeam × BattleTeam × List TurnEvent × Rng)
    (h : execute_attack_move atkT a defT evs rng = Option.some r) :
    TeamStep atkT r.1 ∧ TeamStep defT r.2.1 := by
  unfold execute_attack_move at h
  rcases hatk : atkT.active_pokemon with _ | atk_mon <;>
    rcases hdm : defT.active_pokemon with _ | def_mon <;>
    rw [hatk, hdm] at h <;> dsimp only at h
  · rw [Option.some_inj] at h
    subst h
    exact ⟨teamStep_refl atkT, teamStep_refl defT⟩
  · rw [Option.some_inj] at h
    subst h
    exact ⟨teamStep_refl atkT, teamStep_refl defT⟩
  · rw [Option.some_inj] at h
    subst h
    exact ⟨teamStep_refl atkT, teamStep_refl defT⟩
  · rcases hcm : chooseMove a.move_index atk_mon.moves with _ | move0
    · rw [hcm] at h
      dsimp only at h
      exact Option.noConfusion h
    · rw [hcm] at h
      dsimp only at h
      have hstep1 : TeamStep atkT (atkT.setActive { atk_mon with
          moves := atk_mon.moves.set
            (pyIndexNat atk_mon.moves (chooseMoveIdx a.move_index atk_mon.moves))
            move0.decPP }) :=
        teamStep_setActive atkT _ hatk (fun hm => hm) (fun hf => hf)
      repeat' split at h
      all_goals first
        | (rw [Option.some_inj] at h
           subst h
           first
             | exact ⟨teamStep_refl atkT, teamStep_refl defT⟩
             | exact ⟨hstep1, teamStep_refl defT⟩
             | exact handle_status_move_step _ _ _ _
             | exact ⟨teamStep_trans hstep1 (handle_status_move_step _ _ _ _).1,
                 (handle_status_move_step _ _ _ _).2⟩)
        | (obtain ⟨hA, hD⟩ := execute_attack_damage_step _ _ _ _ _ hdef r h
           exact ⟨hA, hD⟩)
        | (obtain ⟨hA, hD⟩ := execute_attack_damage_step _ _ _ _ _ hdef r h
           exact ⟨teamStep_trans hstep1 hA, hD⟩)

lemma execute_attack_para_step (atkT : BattleTeam) (a : BattleAction)
    (defT : BattleTeam) (evs : List TurnEvent) (rng : Rng)
    (hdef : TeamInv defT) (r : BattleTeam × BattleTeam × List TurnEvent × Rng)
    (h : execute_attack_para atkT a defT evs rng = Option.some r) :
    TeamStep atkT r.1 ∧ TeamStep defT r.2.1 := by
  unfold execute_attack_para at h
  rcases hat2 : atkT.active_pokemon with _ | m2
  · rw [hat2] at h
    dsimp only at h
    exact execute_attack_move_step atkT a defT evs rng hdef r h
  · rw [hat2] at h
    dsimp only at h
    split at h
    · split at h
      · rw [Option.some_inj] at h
        subst h
        exact ⟨teamStep_refl atkT, teamStep_refl defT⟩
      · exact execute_attack_move_step atkT a defT evs _ hdef r h
    · exact execute_attack_move_step atkT a defT evs rng hdef r h

lemma execute_attack_gate2_step (atkT : BattleTeam) (a : BattleAction)
    (defT : BattleTeam) (evs : List TurnEvent) (rng : Rng)
    (hdef : TeamInv defT) (r : BattleTeam × BattleTeam × List TurnEvent × Rng)
    (h : execute_attack_gate2 atkT a defT evs rng = Option.some r) :
    TeamStep atkT r.1 ∧ TeamStep defT r.2.1 := by
  unfold execute_attack_gate2 at h
  rcases hatk : atkT.active_pokemon with _ | atk_mon
  · rw [hatk] at h
    dsimp only at h
    exact execute_attack_para_step atkT a defT evs rng hdef r h
  · rw [hatk] at h
    dsimp only at h
    split at h
    · split at h
      · obtain ⟨hA, hD⟩ := execute_attack_para_step _ a defT _ _ hdef r h
        refine ⟨teamStep_trans ?_ hA, hD⟩
        exact teamStep_setActive atkT _ hatk (fun hm => hm) (fun hf => hf)
      · rw [Option.some_inj] at h
        subst h
        exact ⟨teamStep_refl atkT, teamStep_refl defT⟩
    · exact execute_attack_para_step atkT a defT evs rng hdef r h

lemma execute_attack_step (atkT : BattleTeam) (a : BattleAction)
    (defT : BattleTeam) (rng : Rng) (hdef : TeamInv defT)
    (r : BattleTeam × BattleTeam × List TurnEvent × Rng)
    (h : execute_attack atkT a defT rng = Option.some r) :
    TeamStep atkT r.1 ∧ TeamStep defT r.2.1 := by
  unfold execute_attack at h
  rcases hatk : atkT.active_pokemon with _ | atk_mon <;>
    rcases hdm : defT.active_pokemon with _ | def_mon <;>
    rw [hatk, hdm] at h <;> dsimp only at h
  · rw [Option.some_inj] at h
    subst h
    exact ⟨teamStep_refl atkT, teamStep_refl defT⟩
  · rw [Option.some_inj] at h
    subst h
    exact ⟨teamStep_refl atkT, teamStep_refl defT⟩
  · rw [Option.some_inj] at h
    subst h
    exact ⟨teamStep_refl atkT, teamStep_refl defT⟩
  · repeat' split at h
    all_goals first
      | (rw [Option.some_inj] at h
         subst h
         first
           | exact ⟨teamStep_refl atkT, teamStep_refl defT⟩
           | exact ⟨teamStep_setActive atkT _ hatk (fun hm => hm) (fun hf => hf),
               teamStep_refl defT⟩)
      | (obtain ⟨hA, hD⟩ := execute_attack_gate2_step _ a defT _ _ hdef r h
         exact ⟨hA, hD⟩)
      | (obtain ⟨hA, hD⟩ := execute_attack_gate2_step _ a defT _ _ hdef r h
         refine ⟨teamStep_trans ?_ hA, hD⟩
         exact teamStep_setActive atkT _ hatk (fun hm => hm) (fun hf => hf))

lemma attack_step_step (a1 a2 : BattleAction) (s : Bool) (t1 t2 : BattleTeam)
    (rng : Rng) (h1 : TeamInv t1) (h2 : TeamInv t2)
    (r : BattleTeam × BattleTeam × List TurnEvent × Rng)
    (h : attack_step a1 a2 s t1 t2 rng = Option.some r) :
    TeamStep t1 r.1 ∧ TeamStep t2 r.2.1 := by
  unfold attack_step at h
  cases s
  · rw [if_neg Bool.false_ne_true, if_neg Bool.false_ne_true,
      if_neg Bool.false_ne_true] at h
    dsimp only at h
    rcases hatk : t2.active_pokemon with _ | atk_mon <;>
      rcases hdm : t1.active_pokemon with _ | def_mon <;>
      rw [hatk, hdm] at h <;> dsimp only at h
    · rw [Option.some_inj] at h
      subst h
      exact ⟨teamStep_refl t1, teamStep_refl t2⟩
    · rw [Option.some_inj] at h
      subst h
      exact ⟨teamStep_refl t1, teamStep_refl t2⟩
    · rw [Option.some_inj] at h
      subst h
      exact ⟨teamStep_refl t1, teamStep_refl t2⟩
    · split at h
      · rw [Option.some_inj] at h
        subst h
        exact ⟨teamStep_refl t1, teamStep_refl t2⟩
      · split at h
        · rw [Option.some_inj] at h
          subst h
          exact ⟨teamStep_refl t1, teamStep_refl t2⟩
        · split at h
          · rw [Option.some_inj] at h
            subst h
            exact ⟨teamStep_refl t1, teamStep_refl t2⟩
          · rcases hea : execute_attack t2 a2 t1 rng with _ | ⟨aT1, dT1, evsx, rngx⟩
            · rw [hea] at h
              dsimp only at h
              exact Option.noConfusion h
            · rw [hea] at h
              dsimp only at h
              rw [if_neg Bool.false_ne_true] at h
              rw [Option.some_inj] at h
              subst h
              obtain ⟨hA, hD⟩ := execute_attack_step t2 a2 t1 rng h1 _ hea
              exact ⟨teamStep_trans hD (faint_check_step dT1),
                teamStep_trans hA (faint_check_step aT1)⟩
  · rw [if_pos rfl, if_pos rfl, if_pos rfl] at h
    dsimp only at h
    rcases hatk : t1.active_pokemon with _ | atk_mon <;>
      rcases hdm : t2.active_pokemon with _ | def_mon <;>
      rw [hatk, hdm] at h <;> dsimp only at h
    · rw [Option.some_inj] at h
      subst h
      exact ⟨teamStep_refl t1, teamStep_refl t2⟩
    · rw [Option.some_inj] at h
      subst h
      exact ⟨teamStep_refl t1, teamStep_refl t2⟩
    · rw [Option.some_inj] at h
      subst h
      exact ⟨teamStep_refl t1, teamStep_refl t2⟩
    · split at h
      · rw [Option.some_inj] at h
        subst h
        exact ⟨teamStep_refl t1, teamStep_refl t2⟩
      · split at h
        · rw [Option.some_inj] at h
          subst h
          exact ⟨teamStep_refl t1, teamStep_refl t2⟩
        · split at h
          · rw [Option.some_inj] at h
            subst h
            exact ⟨teamStep_refl t1, teamStep_refl t2⟩
          · rcases hea : execute_attack t1 a1 t2 rng with _ | ⟨aT1, dT1, evsx, rngx⟩
            · rw [hea] at h
              dsimp only at h
              exact Option.noConfusion h
            · rw [hea] at h
              dsimp only at h
              rw [if_pos rfl] at h
              rw [Option.some_inj] at h
              subst h
              obtain ⟨hA, hD⟩ := execute_attack_step t1 a1 t2 rng h2 _ hea
              exact ⟨teamStep_trans hA (faint_check_step aT1),
                teamStep_trans hD (faint_check_step dT1)⟩

lemma attack_phase_step (a1 a2 : BattleAction) (order : List Bool) :
    ∀ (t1 t2 : BattleTeam) (evs : List TurnEvent) (rng : Rng)
      (r : BattleTeam × BattleTeam × List TurnEvent × Rng),
      TeamInv t1 → TeamInv t2 →
      attack_phase a1 a2 order t1 t2 evs rng = Option.some r →
      TeamStep t1 r.1 ∧ TeamStep t2 r.2.1 := by
  induction order with
  | nil =>
    intro t1 t2 evs rng r _ _ h
    unfold attack_phase at h
    rw [Option.some_inj] at h
    subst h
    exact ⟨teamStep_refl t1, teamStep_refl t2⟩
  | cons s rest ih =>
    intro t1 t2 evs rng r hi1 hi2 h
    unfold attack_phase at h
    rcases hs : attack_step a1 a2 s t1 t2 rng with _ | ⟨t1x, t2x, sevs, rngx⟩
    · rw [hs] at h
      dsimp only at h
      exact Option.noConfusion h
    · rw [hs] at h
      dsimp only at h
      obtain ⟨hA, hB⟩ := attack_step_step a1 a2 s t1 t2 rng hi1 hi2 _ hs
      obtain ⟨hA2, hB2⟩ := ih t1x t2x (evs ++ sevs) rngx r
        (teamStep_teamInv hA hi1) (teamStep_teamInv hB hi2) h
      exact ⟨teamStep_trans hA hA2, teamStep_trans hB hB2⟩

lemma end_of_turn_for_step (t : BattleTeam) :
    TeamStep t (end_of_turn_for t).1 := by
  unfold end_of_turn_for
  rcases hact : t.active_pokemon with _ | mon
  · exact teamStep_refl t
  · dsimp only
    split
    · exact teamStep_refl t
    · rcases hact1 : (apply_status_damage t).1.active_pokemon with _ | mon1
      · exact apply_status_damage_step t
      · dsimp only
        split
        · rcases hn : (apply_status_damage t).1.next_alive_index with _ | idx
          · exact apply_status_damage_step t
          · dsimp only
            exact teamStep_trans (apply_status_damage_step t) (teamStep_roster_eq rfl)
        · exact apply_status_damage_step t

/-- C10: every engine operation on a battle preserves, for every roster
member of both teams, the invariant `0 ≤ current_hp ≤ max_hp` together with
the property that a health of 0 implies the fainted flag; the fainted flag,
once set, is never cleared by a turn resolution; `take_damage` sets the
fainted flag whenever it brings health to 0; and `heal` on a fainted
combatant restores nothing. -/
theorem engine_hp_invariants :
    (∀ (now : ℕ) (st : BattleState) (rng : Rng) (st' : BattleState)
        (evs : List TurnEvent),
      resolve_turn now st rng = Option.some (st', evs) → StateInv st →
      StateInv st' ∧
      (∀ u u', st.team1 = Option.some u → st'.team1 = Option.some u' →
        TeamFaintMono u u') ∧
      (∀ u u', st.team2 = Option.some u → st'.team2 = Option.some u' →
        TeamFaintMono u u')) ∧
    (∀ (m : BattlePokemon) (a : ℤ),
      (m.take_damage a).2.current_hp = 0 → (m.take_damage a).2.is_fainted = true) ∧
    (∀ (m : BattlePokemon) (a : ℤ), m.is_fainted = true → m.heal a = (0, m)) := by
  refine ⟨?_, take_damage_zero_fainted, heal_fainted⟩
  intro now st rng st' evs h hinv
  by_cases hsub : st.both_actions_submitted = false
  · unfold resolve_turn at h
    rw [if_pos hsub] at h
    rw [Option.some_inj] at h
    injection h with hA hB
    subst hA
    refine ⟨hinv, ?_, ?_⟩ <;>
    · intro u u' hu hu'
      rw [hu] at hu'
      rw [Option.some_inj] at hu'
      subst hu'
      exact teamStep_faintMono (teamStep_refl u)
  · unfold resolve_turn at h
    rw [if_neg hsub] at h
    rcases ht1 : st.team1 with _ | t1 <;> rcases ht2 : st.team2 with _ | t2 <;>
      rw [ht1, ht2] at h <;> dsimp only at h
    · exact Option.noConfusion h
    · exact Option.noConfusion h
    · exact Option.noConfusion h
    · obtain ⟨hi1, hi2⟩ := hinv
      rw [ht1] at hi1
      rw [ht2] at hi2
      rcases ha1 : t1.action with _ | a1 <;> rcases ha2 : t2.action with _ | a2 <;>
        rw [ha1, ha2] at h <;> dsimp only at h
      · exact Option.noConfusion h
      · exact Option.noConfusion h
      · exact Option.noConfusion h
      · split at h
        · rw [Option.some_inj] at h
          injection h with hA hB
          subst hB
          subst hA
          refine ⟨⟨hi1, hi2⟩, ?_, ?_⟩
          · intro u u' hu hu'
            rw [Option.some_inj] at hu
            subst hu
            dsimp only at hu'
            rw [Option.some_inj] at hu'
            subst hu'
            exact teamStep_faintMono (teamStep_roster_eq rfl)
          · intro u u' hu hu'
            rw [Option.some_inj] at hu
            subst hu
            dsimp only at hu'
            rw [Option.some_inj] at hu'
            subst hu'
            exact teamStep_faintMono (teamStep_roster_eq rfl)
        · split at h
          · rw [Option.some_inj] at h
            injection h with hA hB
            subst hB
            subst hA
            refine ⟨⟨hi1, hi2⟩, ?_, ?_⟩
            · intro u u' hu hu'
              rw [Option.some_inj] at hu
              subst hu
              dsimp only at hu'
              rw [Option.some_inj] at hu'
              subst hu'
              exact teamStep_faintMono (teamStep_roster_eq rfl)
            · intro u u' hu hu'
              rw [Option.some_inj] at hu
              subst hu
              dsimp only at hu'
              rw [Option.some_inj] at hu'
              subst hu'
              exact teamStep_faintMono (teamStep_roster_eq rfl)
          · rcases ho : order_attackers (process_switch t1 a1).1
                (process_switch t2 a2).1 a1 a2 rng with _ | ⟨order, rng1⟩
            · rw [ho] at h
              dsimp only at h
              exact Option.noConfusion h
            · rw [ho] at h
              dsimp only at h
              rcases hap : attack_phase a1 a2 order (process_switch t1 a1).1
                  (process_switch t2 a2).1 [] rng1 with _ | ⟨t1b, t2b, atkEvs, rng2⟩
              · rw [hap] at h
                dsimp only at h
                exact Option.noConfusion h
              · rw [hap] at h
                dsimp only at h
                rw [Option.some_inj] at h
                injection h with hA hB
                subst hB
                subst hA
                have hs1 : TeamStep t1 (process_switch t1 a1).1 :=
                  process_switch_step t1 a1
                have hs2 : TeamStep t2 (process_switch t2 a2).1 :=
                  process_switch_step t2 a2
                obtain ⟨hpA, hpB⟩ := attack_phase_step a1 a2 order
                  (process_switch t1 a1).1 (process_switch t2 a2).1 [] rng1
                  (t1b, t2b, atkEvs, rng2)
                  (teamStep_teamInv hs1 hi1) (teamStep_teamInv hs2 hi2) hap
                have hc1 : TeamStep t1 (end_of_turn_for t1b).1 :=
                  teamStep_trans (teamStep_trans hs1 hpA) (end_of_turn_for_step t1b)
                have hc2 : TeamStep t2 (end_of_turn_for t2b).1 :=
                  teamStep_trans (teamStep_trans hs2 hpB) (end_of_turn_for_step t2b)
                refine ⟨⟨teamStep_teamInv hc1 hi1, teamStep_teamInv hc2 hi2⟩, ?_, ?_⟩
                · intro u u' hu hu'
                  rw [Option.some_inj] at hu
                  subst hu
                  dsimp only at hu'
                  rw [Option.some_inj] at hu'
                  subst hu'
                  exact teamStep_faintMono hc1
                · intro u u' hu hu'
                  rw [Option.some_inj] at hu
                  subst hu
                  dsimp only at hu'
                  rw [Option.some_inj] at hu'
                  subst hu'
                  exact teamStep_faintMono hc2

/-- Witness for C10 on the concrete double-switch turn: the sample state
satisfies the invariant, the turn resolves, and the resolved state satisfies
the invariant with the fainted flags monotone on side 1. -/
theorem engine_hp_invariants_witness :
    StateInv exStSwitch ∧
    ∃ p : BattleState × List TurnEvent,
      resolve_turn 99 exStSwitch [] = Option.some p ∧ StateInv p.1 ∧
      (∀ u u', exStSwitch.team1 = Option.some u → p.1.team1 = Option.some u' →
        TeamFaintMono u u') := by
  have hinv : StateInv exStSwitch := by decide
  obtain ⟨p, hp⟩ : ∃ p, resolve_turn 99 exStSwitch [] = Option.some p := ⟨_, rfl⟩
  obtain ⟨hSI, hM1, hM2⟩ := engine_hp_invariants.1 99 exStSwitch [] p.1 p.2 hp hinv
  exact ⟨hinv, p, hp, hSI, hM1⟩

end Pokedo
